import Mathlib

/-!
Verification development for the openspdm SPDM endpoint library core:
shallow embedding of the transcript manager, the session registry, the
challenge-auth protocol handlers and the endpoint get/set data API, with
theorems about transcript construction, slot checks and frame conditions.

Bytes are modelled as `Nat` values (each < 256 where it matters), byte
strings as `List Nat`.  Machine integers are `Nat` with explicit masks /
mod where the C code truncates.  Fallible C functions (returning an error
status or FALSE) are modelled with `Option` / explicit status results.
Cryptographic primitives (hash, sign) are collaborators of the core and
are passed in as function parameters or recorded symbolically (the
theorems are about which bytes are hashed / signed, not about the
primitives themselves).
-/

/-- The sentinel session id meaning "free slot / no session"
    (SpdmCommonLibInternal.h line 16). -/
def INVALID_SESSION_ID : Nat := 0

/-- Modelled from the spec: the compile-time session-table capacity
    `MAX_SPDM_SESSION_COUNT`; its defining header is not in src (only
    users).  Spec section 3: "a fixed-size array of session slots (4 is
    typical)". -/
def MAX_SPDM_SESSION_COUNT : Nat := 4

/-- Modelled from the spec: compile-time maximum number of certificate
    slots; spec section 3: "up to N certificate chains addressed by slot
    index (0..7)". -/
def MAX_SPDM_SLOT_COUNT : Nat := 8

/-- Modelled from the spec: the "large" message-buffer cap; spec section 6:
    "message buffer small/large (typically 4 KiB / 64 KiB)". -/
def MAX_SPDM_MESSAGE_BUFFER_SIZE : Nat := 0x10000

/-- Modelled from the spec: the "small" message-buffer cap. -/
def MAX_SPDM_MESSAGE_SMALL_BUFFER_SIZE : Nat := 0x1000

/-- Modelled from the spec: the managed-buffer primitive of spec
    section 4.1 (its implementation file is not under src; src holds only
    its interface, SpdmCommonLibInternal.h lines 101-449, and callers).
    A bounded append-only byte buffer: capacity plus current contents. -/
structure MANAGED_BUFFER where
  maxBufferSize : Nat
  buffer : List Nat
deriving Repr, DecidableEq

/-- Modelled from the spec: `append` fails with BufferOverflow when
    `size + n > cap` (spec section 4.1), otherwise extends the contents. -/
def AppendManagedBuffer (mb : MANAGED_BUFFER) (data : List Nat) :
    Option MANAGED_BUFFER :=
  if mb.buffer.length + data.length > mb.maxBufferSize then none
  else some { mb with buffer := mb.buffer ++ data }

/-- Modelled from the spec: `reset` zeros the length only; the capacity is
    unchanged (spec section 4.1 and SpdmCommonLibInternal.h lines 402-413). -/
def ResetManagedBuffer (mb : MANAGED_BUFFER) : MANAGED_BUFFER :=
  { mb with buffer := [] }

/-- Modelled from the spec: `init(cap)` gives an empty buffer with the
    given capacity. -/
def InitManagedBuffer (maxBufferSize : Nat) : MANAGED_BUFFER :=
  { maxBufferSize := maxBufferSize, buffer := [] }

/-- The contents of a managed buffer (GetManagedBuffer). -/
def GetManagedBuffer (mb : MANAGED_BUFFER) : List Nat := mb.buffer

/-- The size of a managed buffer (GetManagedBufferSize). -/
def GetManagedBufferSize (mb : MANAGED_BUFFER) : Nat := mb.buffer.length

/-- The C protocol code frequently ignores the status returned by
    AppendManagedBuffer (e.g. SpdmRequesterLibChallenge.c lines 108 and
    209-212); on overflow the buffer is left unchanged. -/
def appendDiscardingStatus (mb : MANAGED_BUFFER) (data : List Nat) :
    MANAGED_BUFFER :=
  (AppendManagedBuffer mb data).getD mb

/-- Return statuses of the library (RETURN_STATUS values used in src). -/
inductive RETURN_STATUS where
  | returnSuccess
  | returnDeviceError
  | returnSecurityViolation
  | returnInvalidParameter
  | returnUnsupported
  | returnBufferTooSmall
  | returnAccessDenied
  | returnNoResponse
deriving Repr, DecidableEq

/-- First index in a list satisfying a predicate: the shallow embedding of
    the `for (Index = 0; ...` first-match scans of SpdmCommonLibContextData.c. -/
def findFirstIdx (p : α → Bool) : List α → Option Nat
  | [] => none
  | x :: xs => if p x then some 0 else (findFirstIdx p xs).map (· + 1)

theorem findFirstIdx_lt_length {p : α → Bool} {l : List α} {i : Nat}
    (h : findFirstIdx p l = some i) : i < l.length := by
  induction l generalizing i with
  | nil => simp [findFirstIdx] at h
  | cons x xs ih =>
    simp only [findFirstIdx] at h
    by_cases hx : p x
    · simp only [if_pos hx, Option.some.injEq] at h
      subst h
      simp
    · simp [hx, Option.map_eq_some'] at h
      obtain ⟨j, hj, rfl⟩ := h
      have := ih hj
      simp
      omega

theorem findFirstIdx_get {p : α → Bool} {l : List α} {i : Nat}
    (h : findFirstIdx p l = some i) (hi : i < l.length) :
    p (l.get ⟨i, hi⟩) = true := by
  induction l generalizing i with
  | nil => simp [findFirstIdx] at h
  | cons x xs ih =>
    simp only [findFirstIdx] at h
    by_cases hx : p x
    · simp [hx] at h
      subst h
      simpa using hx
    · simp [hx, Option.map_eq_some'] at h
      obtain ⟨j, hj, rfl⟩ := h
      have hj' : j < xs.length := findFirstIdx_lt_length hj
      simpa using ih hj hj'

theorem findFirstIdx_isSome_of_mem {p : α → Bool} {l : List α} {x : α}
    (hx : x ∈ l) (hp : p x = true) : (findFirstIdx p l).isSome := by
  induction l with
  | nil => simp at hx
  | cons y ys ih =>
    simp only [findFirstIdx]
    by_cases hy : p y
    · simp [hy]
    · simp [hy]
      rcases List.mem_cons.mp hx with rfl | hmem
      · exact absurd hp hy
      · have := ih hmem
        cases h : findFirstIdx p ys with
        | none => rw [h] at this; simp at this
        | some j => simp

theorem findFirstIdx_eq_none_of_all {p : α → Bool} {l : List α}
    (h : ∀ x ∈ l, p x = false) : findFirstIdx p l = none := by
  induction l with
  | nil => rfl
  | cons y ys ih =>
    simp only [findFirstIdx]
    have hy := h y (List.mem_cons_self y ys)
    simp [hy]
    exact ih fun x hx => h x (List.mem_cons_of_mem y hx)

/-- The per-slot session state relevant to the registry claims: the session
    id (0 = free) and the `UsePsk` flag (SPDM_SESSION_INFO,
    SpdmCommonLibInternal.h lines 203-209; the per-session transcript and
    secured-message context are zeroed on init and play no role in the
    registry logic). -/
structure SPDM_SESSION_INFO where
  sessionId : Nat
  usePsk : Bool
deriving Repr, DecidableEq

/-- SpdmSessionInfoInit (SpdmCommonLibContextData.c lines 18-65) zeroes the
    slot and installs the new id and UsePsk flag. -/
def SpdmSessionInfoInit (sessionId : Nat) (usePsk : Bool) : SPDM_SESSION_INFO :=
  { sessionId := sessionId, usePsk := usePsk }

/-- SpdmAssignSessionId (SpdmCommonLibContextData.c lines 133-170).
    Fails (NULL return) for the invalid id, for a duplicated id, and when
    every slot is occupied; otherwise initializes the first free slot. -/
def SpdmAssignSessionId (sessions : List SPDM_SESSION_INFO)
    (sessionId : Nat) (usePsk : Bool) : Option (List SPDM_SESSION_INFO) :=
  if sessionId = INVALID_SESSION_ID then none
  else if sessions.any (fun s => s.sessionId == sessionId) then none
  else match findFirstIdx (fun s => s.sessionId == INVALID_SESSION_ID) sessions with
    | some i => some (sessions.set i (SpdmSessionInfoInit sessionId usePsk))
    | none => none

/-- SpdmFreeSessionId (SpdmCommonLibContextData.c lines 238-264).
    Fails for the invalid id and for an id not present; otherwise resets the
    slot holding the id back to the free state. -/
def SpdmFreeSessionId (sessions : List SPDM_SESSION_INFO)
    (sessionId : Nat) : Option (List SPDM_SESSION_INFO) :=
  if sessionId = INVALID_SESSION_ID then none
  else match findFirstIdx (fun s => s.sessionId == sessionId) sessions with
    | some i => some (sessions.set i (SpdmSessionInfoInit INVALID_SESSION_ID false))
    | none => none

/-- SpdmAllocateReqSessionId (SpdmCommonLibContextData.c lines 179-199):
    scans for the first slot whose requester half (upper 16 bits) is free
    and returns `0xFFFF - Index`; the ASSERT(FALSE) path when the table is
    full is modelled as `none`. -/
def SpdmAllocateReqSessionId (sessions : List SPDM_SESSION_INFO) : Option Nat :=
  match findFirstIdx
      (fun s => s.sessionId &&& 0xFFFF0000 == INVALID_SESSION_ID &&& 0xFFFF0000)
      sessions with
  | some i => some ((0xFFFF - i) % 0x10000)
  | none => none

/-- SpdmAllocateRspSessionId (SpdmCommonLibContextData.c lines 208-228):
    symmetric over the responder half (lower 16 bits). -/
def SpdmAllocateRspSessionId (sessions : List SPDM_SESSION_INFO) : Option Nat :=
  match findFirstIdx
      (fun s => s.sessionId &&& 0xFFFF == INVALID_SESSION_ID &&& 0xFFFF)
      sessions with
  | some i => some ((0xFFFF - i) % 0x10000)
  | none => none

/-- The endpoint transcript ledgers (SPDM_TRANSCRIPT,
    SpdmCommonLibInternal.h lines 119-146). -/
structure SPDM_TRANSCRIPT where
  messageA : MANAGED_BUFFER
  messageB : MANAGED_BUFFER
  messageC : MANAGED_BUFFER
  messageMutB : MANAGED_BUFFER
  messageMutC : MANAGED_BUFFER
  m1m2 : MANAGED_BUFFER
  l1l2 : MANAGED_BUFFER
deriving Repr, DecidableEq

/-- The ledger capacities installed by SpdmInitContext
    (SpdmCommonLibContextData.c lines 751-757). -/
def initTranscript : SPDM_TRANSCRIPT :=
  { messageA := InitManagedBuffer MAX_SPDM_MESSAGE_SMALL_BUFFER_SIZE
  , messageB := InitManagedBuffer MAX_SPDM_MESSAGE_BUFFER_SIZE
  , messageC := InitManagedBuffer MAX_SPDM_MESSAGE_SMALL_BUFFER_SIZE
  , messageMutB := InitManagedBuffer MAX_SPDM_MESSAGE_BUFFER_SIZE
  , messageMutC := InitManagedBuffer MAX_SPDM_MESSAGE_SMALL_BUFFER_SIZE
  , m1m2 := InitManagedBuffer MAX_SPDM_MESSAGE_BUFFER_SIZE
  , l1l2 := InitManagedBuffer MAX_SPDM_MESSAGE_BUFFER_SIZE }

/-- Which asymmetric algorithm a challenge-auth signature uses: the
    responder base algorithm (SpdmResponderDataSignFunc with BaseAsymAlgo)
    or the requester algorithm (SpdmRequesterDataSignFunc with
    ReqBaseAsymAlg). -/
inductive SignAlgoUsed where
  | baseAsymAlgo
  | reqBaseAsymAlg
deriving Repr, DecidableEq

/-- Result of SpdmGenerateChallengeAuthSignature: the updated transcript,
    the exact byte string whose hash is signed (the M1M2 ledger contents at
    signing time), and which signing algorithm is invoked. -/
structure ChallengeAuthSignOutcome where
  transcript : SPDM_TRANSCRIPT
  m1m2HashInput : List Nat
  signAlgoUsed : SignAlgoUsed
deriving Repr, DecidableEq

/-- SpdmGenerateChallengeAuthSignature
    (SpdmCommonLibCryptoService.c lines 147-239).
    Requester branch (encapsulated mutual auth): appends the response to
    MessageMutC, then MessageMutB and MessageMutC to M1M2, hashes M1M2 and
    signs with the requester algorithm.  Responder branch: appends the
    response to MessageC, then MessageA, MessageB, MessageC to M1M2, hashes
    M1M2 and signs with the base algorithm.  The sign callback itself is a
    collaborator; whether it succeeds is a parameter of the caller models,
    so this function records the hash input and the algorithm used. -/
def SpdmGenerateChallengeAuthSignature (t : SPDM_TRANSCRIPT)
    (isRequester : Bool) (responseMessage : List Nat) :
    Option ChallengeAuthSignOutcome :=
  if isRequester then
    match AppendManagedBuffer t.messageMutC responseMessage with
    | none => none
    | some mutC =>
      match AppendManagedBuffer t.m1m2 (GetManagedBuffer t.messageMutB) with
      | none => none
      | some m1 =>
        match AppendManagedBuffer m1 (GetManagedBuffer mutC) with
        | none => none
        | some m2 =>
          some { transcript := { t with messageMutC := mutC, m1m2 := m2 }
               , m1m2HashInput := GetManagedBuffer m2
               , signAlgoUsed := SignAlgoUsed.reqBaseAsymAlg }
  else
    match AppendManagedBuffer t.messageC responseMessage with
    | none => none
    | some mc =>
      match AppendManagedBuffer t.m1m2 (GetManagedBuffer t.messageA) with
      | none => none
      | some m1 =>
        match AppendManagedBuffer m1 (GetManagedBuffer t.messageB) with
        | none => none
        | some m2 =>
          match AppendManagedBuffer m2 (GetManagedBuffer mc) with
          | none => none
          | some m3 =>
            some { transcript := { t with messageC := mc, m1m2 := m3 }
                 , m1m2HashInput := GetManagedBuffer m3
                 , signAlgoUsed := SignAlgoUsed.baseAsymAlgo }

/-- SpdmCalculateTHCurrAK (SpdmCommonLibCryptoService.c lines 624-666):
    builds the transcript-hash input THCurr at KEY_EXCHANGE / PSK_EXCHANGE
    time into a fresh large buffer: MessageA, then - only when a certificate
    chain is supplied - the hash of the chain, then MessageK.  `hash` is the
    negotiated base-hash collaborator (SpdmHashAll). -/
def SpdmCalculateTHCurrAK (hash : List Nat → List Nat)
    (messageA messageK : MANAGED_BUFFER) (certBuffer : Option (List Nat)) :
    Option MANAGED_BUFFER :=
  match AppendManagedBuffer (InitManagedBuffer MAX_SPDM_MESSAGE_BUFFER_SIZE)
      (GetManagedBuffer messageA) with
  | none => none
  | some th1 =>
    match certBuffer with
    | none =>
      match AppendManagedBuffer th1 (GetManagedBuffer messageK) with
      | none => none
      | some th3 => some th3
    | some cert =>
      match AppendManagedBuffer th1 (hash cert) with
      | none => none
      | some th2 =>
        match AppendManagedBuffer th2 (GetManagedBuffer messageK) with
        | none => none
        | some th3 => some th3

/-- The TH computation performed by SpdmGeneratePskExchangeRspHmac
    (SpdmCommonLibCryptoService.c lines 1413-1440): for a PSK session the
    certificate argument is NULL, so no cert-hash bytes enter TH. -/
def SpdmGeneratePskExchangeRspHmacTH (hash : List Nat → List Nat)
    (messageA messageK : MANAGED_BUFFER) : Option MANAGED_BUFFER :=
  SpdmCalculateTHCurrAK hash messageA messageK none

/-- Modelled from the spec: DMTF SPDM constants used by the challenge /
    measurement code; their defining industry-standard header is not in
    src.  Measurement-summary-hash type "None". -/
def SPDM_CHALLENGE_REQUEST_NO_MEASUREMENT_SUMMARY_HASH : Nat := 0

/-- Modelled from the spec: measurement-summary-hash type "TcbComponent". -/
def SPDM_CHALLENGE_REQUEST_TCB_COMPONENT_MEASUREMENT_HASH : Nat := 1

/-- Modelled from the spec: measurement-summary-hash type "All". -/
def SPDM_CHALLENGE_REQUEST_ALL_MEASUREMENTS_HASH : Nat := 0xFF

/-- Modelled from the spec: the DMTF measurement value-type mask. -/
def SPDM_MEASUREMENT_BLOCK_MEASUREMENT_TYPE_MASK : Nat := 0x7

/-- Modelled from the spec: the DMTF value type "immutable ROM". -/
def SPDM_MEASUREMENT_BLOCK_MEASUREMENT_TYPE_IMMUTABLE_ROM : Nat := 0

/-- Modelled from the spec: the MUT_AUTH_CAP capability flag bit. -/
def SPDM_GET_CAPABILITIES_REQUEST_FLAGS_MUT_AUTH_CAP : Nat := 0x100

/-- Modelled from the spec: the CHAL_CAP capability flag bit. -/
def SPDM_GET_CAPABILITIES_RESPONSE_FLAGS_CHAL_CAP : Nat := 0x4

/-- Modelled from the spec: SPDM ERROR code InvalidRequest. -/
def SPDM_ERROR_CODE_INVALID_REQUEST : Nat := 0x01

/-- Modelled from the spec: SPDM ERROR code UnsupportedRequest. -/
def SPDM_ERROR_CODE_UNSUPPORTED_REQUEST : Nat := 0x07

/-- Modelled from the spec: maximum measurement record size used as the
    length of the MeasurementData stack array. -/
def MAX_SPDM_MEASUREMENT_RECORD_SIZE : Nat := 0x1000

/-- A DMTF measurement block as handed back by the measurement-collection
    collaborator: the DMTF value type byte and the measurement value.  The
    common-header MeasurementSize is `3 + value length` (the DMTF header is
    3 bytes), which the code asserts
    (SpdmCommonLibCryptoService.c line 454). -/
structure SPDM_MEASUREMENT_BLOCK_DMTF where
  dmtfSpecMeasurementValueType : Nat
  dmtfSpecMeasurementValue : List Nat
deriving Repr, DecidableEq

/-- The bytes copied for one measurement block by
    SpdmGenerateMeasurementSummaryHash: the 3-byte DMTF header
    (value type, 16-bit little-endian value size) followed by the value
    (CopyMem source `&CachedMeasurmentBlock->MeasurementBlockDmtfHeader`
    with length MeasurementSize). -/
def dmtfRegionBytes (b : SPDM_MEASUREMENT_BLOCK_DMTF) : List Nat :=
  b.dmtfSpecMeasurementValueType % 256 ::
  b.dmtfSpecMeasurementValue.length % 256 ::
  b.dmtfSpecMeasurementValue.length / 256 % 256 ::
  b.dmtfSpecMeasurementValue

/-- The MeasurementSize field of a block's common header. -/
def measurementSize (b : SPDM_MEASUREMENT_BLOCK_DMTF) : Nat :=
  3 + b.dmtfSpecMeasurementValue.length

/-- CopyMem into a byte array at an offset: bytes before and after the
    written region keep their previous (possibly indeterminate) values. -/
def writeBytesAt (buf : List Nat) (off : Nat) (data : List Nat) : List Nat :=
  buf.take off ++ data ++ buf.drop (off + data.length)

/-- Whether SpdmGenerateMeasurementSummaryHash copies a block
    (SpdmCommonLibCryptoService.c lines 465-466): always for type All,
    otherwise only when the masked DMTF value type equals Immutable-ROM. -/
def summaryBlockSelected (measurementSummaryHashType : Nat)
    (b : SPDM_MEASUREMENT_BLOCK_DMTF) : Bool :=
  measurementSummaryHashType == SPDM_CHALLENGE_REQUEST_ALL_MEASUREMENTS_HASH ||
  (b.dmtfSpecMeasurementValueType &&& SPDM_MEASUREMENT_BLOCK_MEASUREMENT_TYPE_MASK
     == SPDM_MEASUREMENT_BLOCK_MEASUREMENT_TYPE_IMMUTABLE_ROM)

/-- The second block loop of SpdmGenerateMeasurementSummaryHash
    (SpdmCommonLibCryptoService.c lines 461-471): walks the blocks, copies a
    selected block's DMTF region into MeasurementData at the running offset,
    and advances the offset by the block's MeasurementSize whether or not the
    block was copied.  Returns the array contents and the final offset. -/
def summaryGatherLoop (measurementSummaryHashType : Nat)
    (blocks : List SPDM_MEASUREMENT_BLOCK_DMTF) (buf : List Nat) (off : Nat) :
    List Nat × Nat :=
  match blocks with
  | [] => (buf, off)
  | b :: rest =>
    let buf' := if summaryBlockSelected measurementSummaryHashType b
                then writeBytesAt buf off (dmtfRegionBytes b)
                else buf
    summaryGatherLoop measurementSummaryHashType rest buf' (off + measurementSize b)

/-- What a measurement-summary-hash computation produces: either the
    all-zero hash (ZeroMem of the negotiated hash length) or the hash of a
    specific byte string. -/
inductive MeasurementSummary where
  | zeroHash
  | hashOf (input : List Nat)
deriving Repr, DecidableEq

/-- SpdmGenerateMeasurementSummaryHash
    (SpdmCommonLibCryptoService.c lines 411-479).  `blocks` is what the
    SpdmMeasurementCollectionFunc collaborator returned; `scratch` is the
    initial (indeterminate) content of the MeasurementData stack array.
    Type None zeroes the output; types TcbComponent and All hash the first
    MeasurmentDataSize bytes of MeasurementData after the gather loop; any
    other type returns FALSE. -/
def SpdmGenerateMeasurementSummaryHash (measurementSummaryHashType : Nat)
    (blocks : List SPDM_MEASUREMENT_BLOCK_DMTF) (scratch : List Nat) :
    Option MeasurementSummary :=
  if measurementSummaryHashType == SPDM_CHALLENGE_REQUEST_NO_MEASUREMENT_SUMMARY_HASH then
    some MeasurementSummary.zeroHash
  else if measurementSummaryHashType == SPDM_CHALLENGE_REQUEST_TCB_COMPONENT_MEASUREMENT_HASH
       || measurementSummaryHashType == SPDM_CHALLENGE_REQUEST_ALL_MEASUREMENTS_HASH then
    let r := summaryGatherLoop measurementSummaryHashType blocks scratch 0
    some (MeasurementSummary.hashOf (r.1.take r.2))
  else none

/-- The hash input the claim describes: exactly the selected blocks' bytes,
    concatenated (written from the spec sentence "TcbComponent hashes
    exactly the measurement blocks whose DMTF measurement value type,
    masked with the measurement-type mask, equals Immutable-ROM; All hashes
    all measurement blocks", for comparison with the code model above). -/
def specSummaryHashInput (measurementSummaryHashType : Nat)
    (blocks : List SPDM_MEASUREMENT_BLOCK_DMTF) : List Nat :=
  ((blocks.filter (summaryBlockSelected measurementSummaryHashType)).map
    dmtfRegionBytes).flatten

/-- CalculateMeasurementSummaryHash, the SpdmResponderLib variant
    (SpdmResponderLibChallengeAuth.c lines 28-91).  Blocks are the locally
    provisioned DeviceMeasurement entries, each value of the measurement
    hash size.  TcbComponent selects blocks whose DMTF value type equals
    Immutable-ROM exactly (no mask here) and compacts the selected values
    consecutively; All concatenates every value; None zeroes; other types
    return FALSE. -/
def CalculateMeasurementSummaryHash (measurementSummaryHashType : Nat)
    (blocks : List SPDM_MEASUREMENT_BLOCK_DMTF) : Option MeasurementSummary :=
  if measurementSummaryHashType == SPDM_CHALLENGE_REQUEST_NO_MEASUREMENT_SUMMARY_HASH then
    some MeasurementSummary.zeroHash
  else if measurementSummaryHashType == SPDM_CHALLENGE_REQUEST_TCB_COMPONENT_MEASUREMENT_HASH then
    some (MeasurementSummary.hashOf
      (((blocks.filter (fun b =>
          b.dmtfSpecMeasurementValueType
            == SPDM_MEASUREMENT_BLOCK_MEASUREMENT_TYPE_IMMUTABLE_ROM)).map
        (fun b => b.dmtfSpecMeasurementValue)).flatten))
  else if measurementSummaryHashType == SPDM_CHALLENGE_REQUEST_ALL_MEASUREMENTS_HASH then
    some (MeasurementSummary.hashOf
      ((blocks.map (fun b => b.dmtfSpecMeasurementValue)).flatten))
  else none

/-- Modelled from the spec: the slot field of the CHALLENGE_AUTH auth
    attribute byte (Param1), the low 4 bits of the bitfield
    SPDM_CHALLENGE_AUTH_RESPONSE_ATTRIBUTE, whose defining header is not in
    src (src reads and writes its SlotNum and BasicMutAuthReq members). -/
def challengeAuthAttrSlotNum (param1 : Nat) : Nat := param1 % 16

/-- Modelled from the spec: the BasicMutAuthReq field of the auth attribute
    byte, its top bit. -/
def challengeAuthAttrBasicMutAuthReq (param1 : Nat) : Nat := param1 / 128 % 2

/-- Outcome of a responder-side challenge handler: either an SPDM ERROR
    response with the given code, or a CHALLENGE_AUTH response with the
    given header Param1/Param2; plus the transcript as left behind. -/
structure ChallengeRspOutcome where
  isError : Bool
  errorCode : Nat
  respParam1 : Nat
  respParam2 : Nat
  transcript : SPDM_TRANSCRIPT
deriving Repr, DecidableEq

/-- SpdmGetEncapResponseChallengeAuth
    (SpdmRequesterLibEncapChallengeAuth.c lines 29-141): the requester
    answering an encapsulated CHALLENGE during mutual auth.
    `requestSizeOk` abstracts the exact-size check of line 53; `signOk` is
    the SpdmRequesterDataSignFunc collaborator's result; the cert-chain
    hash, nonce and opaque bytes do not influence the modelled outcome
    fields beyond `responseBytesNoSig`, the serialized response up to the
    signature that is handed to SpdmGenerateChallengeAuthSignature. -/
def SpdmGetEncapResponseChallengeAuth (t : SPDM_TRANSCRIPT)
    (slotCount : Nat) (requestSizeOk : Bool) (reqParam1 reqParam2 : Nat)
    (requestBytes : List Nat) (blocks : List SPDM_MEASUREMENT_BLOCK_DMTF)
    (scratch : List Nat) (responseBytesNoSig : List Nat) (signOk : Bool) :
    ChallengeRspOutcome :=
  if !requestSizeOk then
    ⟨true, SPDM_ERROR_CODE_INVALID_REQUEST, 0, 0, t⟩
  else
    match AppendManagedBuffer t.messageMutC requestBytes with
    | none => ⟨true, SPDM_ERROR_CODE_INVALID_REQUEST, 0, 0, t⟩
    | some mutC =>
      let t1 : SPDM_TRANSCRIPT := { t with messageMutC := mutC }
      if reqParam1 != 0xFF && decide (slotCount ≤ reqParam1) then
        ⟨true, SPDM_ERROR_CODE_INVALID_REQUEST, 0, 0, t1⟩
      else
        let respParam1 := reqParam1 % 16
        let respParam2 := if reqParam1 == 0xFF then 0 else 2 ^ reqParam1 % 256
        match SpdmGenerateMeasurementSummaryHash reqParam2 blocks scratch with
        | none => ⟨true, SPDM_ERROR_CODE_INVALID_REQUEST, 0, 0, t1⟩
        | some _ =>
          match SpdmGenerateChallengeAuthSignature t1 true responseBytesNoSig with
          | none =>
            ⟨true, SPDM_ERROR_CODE_UNSUPPORTED_REQUEST, 0, 0, t1⟩
          | some out =>
            if !signOk then
              ⟨true, SPDM_ERROR_CODE_UNSUPPORTED_REQUEST, 0, 0, out.transcript⟩
            else
              ⟨false, 0, respParam1, respParam2,
               { out.transcript with m1m2 := ResetManagedBuffer out.transcript.m1m2 }⟩

/-- SpdmGenerateChallengeSignature, the SpdmResponderLib variant
    (SpdmResponderLibChallengeAuth.c lines 93-150): requires the private
    PEM, loads the RSA key (collaborator result `rsaKeyOk`), appends the
    response to MessageC and then MessageA, MessageB, MessageC to M1M2
    (statuses discarded), hashes M1M2 and RSA-signs (collaborator result
    `rsaSignOk`). -/
structure ChallengeSigGenResult where
  ok : Bool
  transcript : SPDM_TRANSCRIPT
  m1m2HashInput : List Nat
deriving Repr, DecidableEq

def SpdmGenerateChallengeSignature (t : SPDM_TRANSCRIPT)
    (privatePemPresent rsaKeyOk rsaSignOk : Bool)
    (responseMessage : List Nat) : ChallengeSigGenResult :=
  if !privatePemPresent then ⟨false, t, []⟩
  else if !rsaKeyOk then ⟨false, t, []⟩
  else
    let mc := appendDiscardingStatus t.messageC responseMessage
    let m1 := appendDiscardingStatus t.m1m2 (GetManagedBuffer t.messageA)
    let m2 := appendDiscardingStatus m1 (GetManagedBuffer t.messageB)
    let m3 := appendDiscardingStatus m2 (GetManagedBuffer mc)
    ⟨rsaSignOk, { t with messageC := mc, m1m2 := m3 }, GetManagedBuffer m3⟩

/-- SpdmGetResponseChallenge, the SpdmResponderLib challenge handler
    (SpdmResponderLibChallengeAuth.c lines 152-230).  Rejects with
    InvalidRequest when the requested slot is strictly greater than
    SlotCount; generates InvalidRequest when the measurement-summary type is
    invalid; generates UnsupportedRequest when signature generation fails;
    otherwise produces the CHALLENGE_AUTH response with Param1 = slot and
    Param2 = (1 << slot) truncated to a byte.  This handler does not reset
    M1M2. -/
def SpdmGetResponseChallenge (t : SPDM_TRANSCRIPT) (slotCount : Nat)
    (reqParam1 reqParam2 : Nat) (blocks : List SPDM_MEASUREMENT_BLOCK_DMTF)
    (privatePemPresent rsaKeyOk rsaSignOk : Bool)
    (responseBytesNoSig : List Nat) : ChallengeRspOutcome :=
  if slotCount < reqParam1 then
    ⟨true, SPDM_ERROR_CODE_INVALID_REQUEST, 0, 0, t⟩
  else
    let respParam1 := reqParam1
    let respParam2 := 2 ^ reqParam1 % 256
    match CalculateMeasurementSummaryHash reqParam2 blocks with
    | none => ⟨true, SPDM_ERROR_CODE_INVALID_REQUEST, 0, 0, t⟩
    | some _ =>
      let sig := SpdmGenerateChallengeSignature t privatePemPresent rsaKeyOk
                   rsaSignOk responseBytesNoSig
      if !sig.ok then
        ⟨true, SPDM_ERROR_CODE_UNSUPPORTED_REQUEST, 0, 0, sig.transcript⟩
      else
        ⟨false, 0, respParam1, respParam2, sig.transcript⟩

/-- Outcome of the requester challenge operation: the returned status,
    whether the encapsulated mutual-auth sub-flow (SpdmEncapsulatedRequest)
    was started, and the transcript as left behind. -/
structure ChallengeOutcome where
  status : RETURN_STATUS
  encapStarted : Bool
  transcript : SPDM_TRANSCRIPT
deriving Repr, DecidableEq

/-- TrySpdmChallenge (SpdmRequesterLibChallenge.c lines 44-250), the
    requester CHALLENGE operation, with transport, parsing and
    cryptographic collaborators abstracted into explicit inputs, in the
    exact order of the C checks:
    * `receiveStateOk` - the NEGOTIATE_ALGORITHMS / GET_CAPABILITIES /
      GET_DIGESTS receive-flag test (lines 70-74);
    * `capabilityFlags` - ConnectionInfo.Capability.Flags;
    * `sendOk` / `receiveOk` - SpdmSendSpdmRequest / SpdmReceiveSpdmResponse;
    * `respSizeOkHeader` - response at least a header (line 116);
    * `respIsSpdmError` - response code SPDM_ERROR; the
      SpdmHandleErrorResponseMain sub-flow is not part of src, so the model
      stops there with that handler's status `errorHandlerStatus`
      (theorems about CHALLENGE_AUTH responses take respIsSpdmError = false);
    * `respIsChallengeAuth` - response code is CHALLENGE_AUTH (line 124);
    * `respSizeOkAuth` - the size window of lines 127-131;
    * `respParam1` / `respParam2` - the response header fields checked at
      lines 133-148 against the requested slot;
    * `respSizeOkBody` - the minimum-body check of lines 157-163;
    * `certChainHashOk` - SpdmVerifyCertificateChainHash (line 172);
    * `respSizeOkFull` - the full-length check of lines 193-201;
    * `respBytesNoSig` - the response bytes up to the signature appended to
      MessageC (line 209);
    * `sigOk` - SpdmVerifyChallengeAuthSignature (line 222);
    * `encapOk` - SpdmEncapsulatedRequest (line 238). -/
def TrySpdmChallenge (t : SPDM_TRANSCRIPT)
    (receiveStateOk : Bool) (capabilityFlags : Nat)
    (peerCertChainProvisionSize : Nat) (slotNum : Nat)
    (requestBytes : List Nat) (sendOk receiveOk : Bool)
    (respSizeOkHeader respIsSpdmError : Bool)
    (errorHandlerStatus : RETURN_STATUS)
    (respIsChallengeAuth respSizeOkAuth : Bool)
    (respParam1 respParam2 : Nat)
    (respSizeOkBody certChainHashOk respSizeOkFull : Bool)
    (respBytesNoSig : List Nat) (sigOk encapOk : Bool) : ChallengeOutcome :=
  if !receiveStateOk then
    ⟨RETURN_STATUS.returnDeviceError, false, t⟩
  else if capabilityFlags &&& SPDM_GET_CAPABILITIES_RESPONSE_FLAGS_CHAL_CAP == 0 then
    ⟨RETURN_STATUS.returnDeviceError, false, t⟩
  else if decide (MAX_SPDM_SLOT_COUNT ≤ slotNum) && slotNum != 0xFF then
    ⟨RETURN_STATUS.returnInvalidParameter, false, t⟩
  else if slotNum == 0xFF && peerCertChainProvisionSize == 0 then
    ⟨RETURN_STATUS.returnInvalidParameter, false, t⟩
  else if !sendOk then
    ⟨RETURN_STATUS.returnDeviceError, false, t⟩
  else
    let t1 : SPDM_TRANSCRIPT :=
      { t with messageC := appendDiscardingStatus t.messageC requestBytes }
    if !receiveOk then
      ⟨RETURN_STATUS.returnDeviceError, false, t1⟩
    else if !respSizeOkHeader then
      ⟨RETURN_STATUS.returnDeviceError, false, t1⟩
    else if respIsSpdmError then
      ⟨errorHandlerStatus, false, t1⟩
    else if !respIsChallengeAuth then
      ⟨RETURN_STATUS.returnDeviceError, false, t1⟩
    else if !respSizeOkAuth then
      ⟨RETURN_STATUS.returnDeviceError, false, t1⟩
    else if slotNum == 0xFF && challengeAuthAttrSlotNum respParam1 != 0xF then
      ⟨RETURN_STATUS.returnDeviceError, false, t1⟩
    else if slotNum == 0xFF && respParam2 != 0 then
      ⟨RETURN_STATUS.returnDeviceError, false, t1⟩
    else if slotNum != 0xFF && challengeAuthAttrSlotNum respParam1 != slotNum then
      ⟨RETURN_STATUS.returnDeviceError, false, t1⟩
    else if slotNum != 0xFF && respParam2 != 2 ^ slotNum then
      ⟨RETURN_STATUS.returnDeviceError, false, t1⟩
    else if challengeAuthAttrBasicMutAuthReq respParam1 == 1
         && capabilityFlags &&& SPDM_GET_CAPABILITIES_REQUEST_FLAGS_MUT_AUTH_CAP == 0 then
      ⟨RETURN_STATUS.returnDeviceError, false, t1⟩
    else if !respSizeOkBody then
      ⟨RETURN_STATUS.returnDeviceError, false, t1⟩
    else if !certChainHashOk then
      ⟨RETURN_STATUS.returnSecurityViolation, false, t1⟩
    else if !respSizeOkFull then
      ⟨RETURN_STATUS.returnDeviceError, false, t1⟩
    else
      let mc := appendDiscardingStatus t1.messageC respBytesNoSig
      let m1 := appendDiscardingStatus t1.m1m2 (GetManagedBuffer t1.messageA)
      let m2 := appendDiscardingStatus m1 (GetManagedBuffer t1.messageB)
      let m3 := appendDiscardingStatus m2 (GetManagedBuffer mc)
      let t2 : SPDM_TRANSCRIPT := { t1 with messageC := mc, m1m2 := m3 }
      if !sigOk then
        ⟨RETURN_STATUS.returnSecurityViolation, false, t2⟩
      else
        let t3 : SPDM_TRANSCRIPT := { t2 with m1m2 := ResetManagedBuffer t2.m1m2 }
        if challengeAuthAttrBasicMutAuthReq respParam1 == 1 then
          if !encapOk then
            ⟨RETURN_STATUS.returnSecurityViolation, true, t3⟩
          else
            ⟨RETURN_STATUS.returnSuccess, true, t3⟩
        else
          ⟨RETURN_STATUS.returnSuccess, false, t3⟩

/-- Little-endian decoding of a byte list (the `*(UINT32 *)Data` reads of
    SpdmSetData). -/
def leNat : List Nat → Nat
  | [] => 0
  | b :: rest => b % 256 + 256 * leNat rest

/-- Little-endian encoding of a value into `n` bytes (the CopyMem out of
    SpdmGetData). -/
def leBytes (v : Nat) : Nat → List Nat
  | 0 => []
  | n + 1 => v % 256 :: leBytes (v / 256) n

/-- Capability fields (SPDM_DEVICE_CAPABILITY, SpdmCommonLibInternal.h
    lines 18-21). -/
structure SPDM_DEVICE_CAPABILITY where
  ctExponent : Nat
  flags : Nat
deriving Repr, DecidableEq

/-- Negotiated / preferred algorithm fields (SPDM_DEVICE_ALGORITHM,
    SpdmCommonLibInternal.h lines 23-31). -/
structure SPDM_DEVICE_ALGORITHM where
  measurementHashAlgo : Nat
  baseAsymAlgo : Nat
  baseHashAlgo : Nat
  dheNamedGroup : Nat
  aeadCipherSuite : Nat
  reqBaseAsymAlg : Nat
  keySchedule : Nat
deriving Repr, DecidableEq

/-- Local (self-provisioned) context (SPDM_LOCAL_CONTEXT,
    SpdmCommonLibInternal.h lines 33-75); provisioned buffers are modelled
    by their byte contents. -/
structure SPDM_LOCAL_CONTEXT where
  spdmVersion : Nat
  capability : SPDM_DEVICE_CAPABILITY
  algorithm : SPDM_DEVICE_ALGORITHM
  certificateChain : List (List Nat)
  slotCount : Nat
  provisionedSlotNum : Nat
  peerRootCertHashProvision : List Nat
  peerCertChainProvision : List Nat
  pskHint : List Nat
  opaqueChallengeAuthRsp : List Nat
  opaqueMeasurementRsp : List Nat
  basicMutAuthRequested : Nat
  mutAuthRequested : Nat
deriving Repr, DecidableEq

/-- Connection (negotiated) context (SPDM_CONNECTION_INFO,
    SpdmCommonLibInternal.h lines 77-98). -/
structure SPDM_CONNECTION_INFO where
  connectionState : Nat
  version : List Nat
  capability : SPDM_DEVICE_CAPABILITY
  algorithm : SPDM_DEVICE_ALGORITHM
  peerCertChainBuffer : List Nat
  localUsedCertChainBuffer : List Nat
deriving Repr, DecidableEq

/-- Encapsulated-dialogue context (SPDM_ENCAP_CONTEXT,
    SpdmCommonLibInternal.h lines 211-218). -/
structure SPDM_ENCAP_CONTEXT where
  errorState : Nat
  encapState : Nat
  requestId : Nat
  slotNum : Nat
  measurementHashType : Nat
  certificateChainBuffer : MANAGED_BUFFER
deriving Repr, DecidableEq

/-- The endpoint device context (SPDM_DEVICE_CONTEXT,
    SpdmCommonLibInternal.h lines 238-306), restricted to the state the
    modelled operations read or write (I/O function pointers and cached
    request bytes are collaborator state). -/
structure SPDM_DEVICE_CONTEXT where
  errorState : Nat
  encapContext : SPDM_ENCAP_CONTEXT
  localContext : SPDM_LOCAL_CONTEXT
  connectionInfo : SPDM_CONNECTION_INFO
  transcript : SPDM_TRANSCRIPT
  sessionInfo : List SPDM_SESSION_INFO
  latestSessionId : Nat
  responseState : Nat
  retryTimes : Nat
  currentToken : Nat
deriving Repr, DecidableEq

/-- The SPDM_DATA_TYPE tags handled by SpdmSetData / SpdmGetData
    (SpdmCommonLibContextData.c lines 373-489 and 546-624). -/
inductive SPDM_DATA_TYPE where
  | spdmDataCapabilityFlags
  | spdmDataCapabilityCTExponent
  | spdmDataMeasurementHashAlgo
  | spdmDataBaseAsymAlgo
  | spdmDataBaseHashAlgo
  | spdmDataDHENamedGroup
  | spdmDataAEADCipherSuite
  | spdmDataReqBaseAsymAlg
  | spdmDataKeySchedule
  | spdmDataConnectionState
  | spdmDataResponseState
  | spdmDataPeerPublicRootCertHash
  | spdmDataPeerPublicCertChains
  | spdmDataSlotCount
  | spdmDataPublicCertChains
  | spdmDataBasicMutAuthRequested
  | spdmDataMutAuthRequested
  | spdmDataPskHint
deriving Repr, DecidableEq

/-- Location discriminator of SPDM_DATA_PARAMETER. -/
inductive SPDM_DATA_LOCATION where
  | spdmDataLocationLocal
  | spdmDataLocationConnection
  | spdmDataLocationSession
deriving Repr, DecidableEq

/-- SPDM_DATA_PARAMETER: location plus the AdditionalData bytes. -/
structure SPDM_DATA_PARAMETER where
  location : SPDM_DATA_LOCATION
  additionalData : List Nat
deriving Repr, DecidableEq

/-- Modelled from the spec: MAX_SPDM_PSK_HINT_LENGTH, compile-time PSK hint
    cap (header not in src). -/
def MAX_SPDM_PSK_HINT_LENGTH : Nat := 16

/-- SPDM_KEY_EXCHANGE_RESPONSE_MUT_AUTH_REQUESTED* bits (modelled from the
    spec; industry-standard header not in src). -/
def SPDM_KEY_EXCHANGE_RESPONSE_MUT_AUTH_REQUESTED : Nat := 0x01

def SPDM_KEY_EXCHANGE_RESPONSE_MUT_AUTH_REQUESTED_WITH_ENCAP_REQUEST : Nat := 0x02

def SPDM_KEY_EXCHANGE_RESPONSE_MUT_AUTH_REQUESTED_WITH_GET_DIGESTS : Nat := 0x04

/-- SpdmInitEncapEnv (SpdmCommonLibContextData.c lines 274-287). -/
def SpdmInitEncapEnv (ctx : SPDM_DEVICE_CONTEXT) (slotNum measurementHashType : Nat) :
    SPDM_DEVICE_CONTEXT :=
  { ctx with encapContext :=
      { ctx.encapContext with
          errorState := 0
          encapState := 0
          requestId := 0
          slotNum := slotNum
          measurementHashType := measurementHashType } }

/-- SpdmSetData (SpdmCommonLibContextData.c lines 340-492).  `data` is the
    raw byte buffer; its length is DataSize.  On an error status the context
    is returned unchanged, as in the C.  Debug-only types (tag values with
    the top bit set) and session-scoped routing
    (NeedSessionInfoForData = FALSE for every tag, lines 317-323) do not
    arise for the modelled tags. -/
def SpdmSetData (ctx : SPDM_DEVICE_CONTEXT) (dataType : SPDM_DATA_TYPE)
    (parameter : SPDM_DATA_PARAMETER) (data : List Nat) :
    RETURN_STATUS × SPDM_DEVICE_CONTEXT :=
  match dataType with
  | SPDM_DATA_TYPE.spdmDataCapabilityFlags =>
    if data.length != 4 then (RETURN_STATUS.returnInvalidParameter, ctx)
    else (RETURN_STATUS.returnSuccess,
      { ctx with localContext := { ctx.localContext with
          capability := { ctx.localContext.capability with flags := leNat data } } })
  | SPDM_DATA_TYPE.spdmDataCapabilityCTExponent =>
    if data.length != 1 then (RETURN_STATUS.returnInvalidParameter, ctx)
    else (RETURN_STATUS.returnSuccess,
      { ctx with localContext := { ctx.localContext with
          capability := { ctx.localContext.capability with ctExponent := leNat data } } })
  | SPDM_DATA_TYPE.spdmDataMeasurementHashAlgo =>
    if data.length != 4 then (RETURN_STATUS.returnInvalidParameter, ctx)
    else (RETURN_STATUS.returnSuccess,
      { ctx with localContext := { ctx.localContext with
          algorithm := { ctx.localContext.algorithm with measurementHashAlgo := leNat data } } })
  | SPDM_DATA_TYPE.spdmDataBaseAsymAlgo =>
    if data.length != 4 then (RETURN_STATUS.returnInvalidParameter, ctx)
    else (RETURN_STATUS.returnSuccess,
      { ctx with localContext := { ctx.localContext with
          algorithm := { ctx.localContext.algorithm with baseAsymAlgo := leNat data } } })
  | SPDM_DATA_TYPE.spdmDataBaseHashAlgo =>
    if data.length != 4 then (RETURN_STATUS.returnInvalidParameter, ctx)
    else (RETURN_STATUS.returnSuccess,
      { ctx with localContext := { ctx.localContext with
          algorithm := { ctx.localContext.algorithm with baseHashAlgo := leNat data } } })
  | SPDM_DATA_TYPE.spdmDataDHENamedGroup =>
    if data.length != 2 then (RETURN_STATUS.returnInvalidParameter, ctx)
    else (RETURN_STATUS.returnSuccess,
      { ctx with localContext := { ctx.localContext with
          algorithm := { ctx.localContext.algorithm with dheNamedGroup := leNat data } } })
  | SPDM_DATA_TYPE.spdmDataAEADCipherSuite =>
    if data.length != 2 then (RETURN_STATUS.returnInvalidParameter, ctx)
    else (RETURN_STATUS.returnSuccess,
      { ctx with localContext := { ctx.localContext with
          algorithm := { ctx.localContext.algorithm with aeadCipherSuite := leNat data } } })
  | SPDM_DATA_TYPE.spdmDataReqBaseAsymAlg =>
    if data.length != 2 then (RETURN_STATUS.returnInvalidParameter, ctx)
    else (RETURN_STATUS.returnSuccess,
      { ctx with localContext := { ctx.localContext with
          algorithm := { ctx.localContext.algorithm with reqBaseAsymAlg := leNat data } } })
  | SPDM_DATA_TYPE.spdmDataKeySchedule =>
    if data.length != 2 then (RETURN_STATUS.returnInvalidParameter, ctx)
    else (RETURN_STATUS.returnSuccess,
      { ctx with localContext := { ctx.localContext with
          algorithm := { ctx.localContext.algorithm with keySchedule := leNat data } } })
  | SPDM_DATA_TYPE.spdmDataResponseState =>
    if data.length != 4 then (RETURN_STATUS.returnInvalidParameter, ctx)
    else (RETURN_STATUS.returnSuccess, { ctx with responseState := leNat data })
  | SPDM_DATA_TYPE.spdmDataPeerPublicRootCertHash =>
    (RETURN_STATUS.returnSuccess,
      { ctx with localContext := { ctx.localContext with
          peerRootCertHashProvision := data } })
  | SPDM_DATA_TYPE.spdmDataPeerPublicCertChains =>
    (RETURN_STATUS.returnSuccess,
      { ctx with localContext := { ctx.localContext with
          peerCertChainProvision := data } })
  | SPDM_DATA_TYPE.spdmDataSlotCount =>
    if data.length != 1 then (RETURN_STATUS.returnInvalidParameter, ctx)
    else if MAX_SPDM_SLOT_COUNT < leNat data then
      (RETURN_STATUS.returnInvalidParameter, ctx)
    else (RETURN_STATUS.returnSuccess,
      { ctx with localContext := { ctx.localContext with slotCount := leNat data } })
  | SPDM_DATA_TYPE.spdmDataPublicCertChains =>
    let slotNum := parameter.additionalData.headD 0
    if ctx.localContext.slotCount ≤ slotNum then
      (RETURN_STATUS.returnInvalidParameter, ctx)
    else (RETURN_STATUS.returnSuccess,
      { ctx with localContext := { ctx.localContext with
          certificateChain := ctx.localContext.certificateChain.set slotNum data } })
  | SPDM_DATA_TYPE.spdmDataBasicMutAuthRequested =>
    if data.length != 1 then (RETURN_STATUS.returnInvalidParameter, ctx)
    else (RETURN_STATUS.returnSuccess,
      { ctx with localContext := { ctx.localContext with
          basicMutAuthRequested := leNat data } })
  | SPDM_DATA_TYPE.spdmDataMutAuthRequested =>
    if data.length != 1 then (RETURN_STATUS.returnInvalidParameter, ctx)
    else
      let mutAuthRequested := leNat data
      if !(mutAuthRequested == 0
        || mutAuthRequested == (SPDM_KEY_EXCHANGE_RESPONSE_MUT_AUTH_REQUESTED |||
             SPDM_KEY_EXCHANGE_RESPONSE_MUT_AUTH_REQUESTED_WITH_ENCAP_REQUEST)
        || mutAuthRequested == (SPDM_KEY_EXCHANGE_RESPONSE_MUT_AUTH_REQUESTED |||
             SPDM_KEY_EXCHANGE_RESPONSE_MUT_AUTH_REQUESTED_WITH_GET_DIGESTS)) then
        (RETURN_STATUS.returnInvalidParameter, ctx)
      else
        (RETURN_STATUS.returnSuccess,
          SpdmInitEncapEnv
            { ctx with localContext := { ctx.localContext with
                mutAuthRequested := mutAuthRequested } }
            (parameter.additionalData.headD 0)
            ((parameter.additionalData.drop 1).headD 0))
  | SPDM_DATA_TYPE.spdmDataPskHint =>
    if MAX_SPDM_PSK_HINT_LENGTH < data.length then
      (RETURN_STATUS.returnInvalidParameter, ctx)
    else (RETURN_STATUS.returnSuccess,
      { ctx with localContext := { ctx.localContext with pskHint := data } })
  | SPDM_DATA_TYPE.spdmDataConnectionState =>
    (RETURN_STATUS.returnUnsupported, ctx)

/-- SpdmGetData (SpdmCommonLibContextData.c lines 513-634).  `dataSize` is
    the caller's buffer size; the result is the copied bytes, or the error
    status.  Every modelled tag except ResponseState requires
    Location = Connection. -/
def SpdmGetData (ctx : SPDM_DEVICE_CONTEXT) (dataType : SPDM_DATA_TYPE)
    (parameter : SPDM_DATA_PARAMETER) (dataSize : Nat) :
    Except RETURN_STATUS (List Nat) :=
  let connOnly := fun (targetSize : Nat) (v : Nat) =>
    if parameter.location != SPDM_DATA_LOCATION.spdmDataLocationConnection then
      Except.error RETURN_STATUS.returnInvalidParameter
    else if dataSize < targetSize then
      Except.error RETURN_STATUS.returnBufferTooSmall
    else
      Except.ok (leBytes v targetSize)
  match dataType with
  | SPDM_DATA_TYPE.spdmDataCapabilityFlags =>
    connOnly 4 ctx.connectionInfo.capability.flags
  | SPDM_DATA_TYPE.spdmDataCapabilityCTExponent =>
    connOnly 1 ctx.connectionInfo.capability.ctExponent
  | SPDM_DATA_TYPE.spdmDataMeasurementHashAlgo =>
    connOnly 4 ctx.connectionInfo.algorithm.measurementHashAlgo
  | SPDM_DATA_TYPE.spdmDataBaseAsymAlgo =>
    connOnly 4 ctx.connectionInfo.algorithm.baseAsymAlgo
  | SPDM_DATA_TYPE.spdmDataBaseHashAlgo =>
    connOnly 4 ctx.connectionInfo.algorithm.baseHashAlgo
  | SPDM_DATA_TYPE.spdmDataDHENamedGroup =>
    connOnly 2 ctx.connectionInfo.algorithm.dheNamedGroup
  | SPDM_DATA_TYPE.spdmDataAEADCipherSuite =>
    connOnly 2 ctx.connectionInfo.algorithm.aeadCipherSuite
  | SPDM_DATA_TYPE.spdmDataReqBaseAsymAlg =>
    connOnly 2 ctx.connectionInfo.algorithm.reqBaseAsymAlg
  | SPDM_DATA_TYPE.spdmDataKeySchedule =>
    connOnly 2 ctx.connectionInfo.algorithm.keySchedule
  | SPDM_DATA_TYPE.spdmDataConnectionState =>
    connOnly 4 ctx.connectionInfo.connectionState
  | SPDM_DATA_TYPE.spdmDataResponseState =>
    if dataSize < 4 then Except.error RETURN_STATUS.returnBufferTooSmall
    else Except.ok (leBytes ctx.responseState 4)
  | _ => Except.error RETURN_STATUS.returnUnsupported

/-- The four-slot all-free session table of a freshly initialized context
    (SpdmInitContext zeroes SessionInfo, SpdmCommonLibContextData.c
    line 749). -/
def initSessionTable : List SPDM_SESSION_INFO :=
  List.replicate MAX_SPDM_SESSION_COUNT (SpdmSessionInfoInit INVALID_SESSION_ID false)

/-- C3: for every registry state in which some slot's requester half
    (upper 16 bits) is free, SpdmAllocateReqSessionId returns 0xFFFF minus
    the index of the first such slot; it fails (the ASSERT(FALSE) path)
    when no slot is free; and a successfully allocated half-id is never the
    sentinel 0.  Symmetrically for SpdmAllocateRspSessionId over the
    responder half (lower 16 bits). -/
theorem spdmAllocateSessionId_firstFree_nonzero
    (sessions : List SPDM_SESSION_INFO)
    (hlen : sessions.length = MAX_SPDM_SESSION_COUNT) :
    ((∃ s ∈ sessions, s.sessionId &&& 0xFFFF0000 = 0) →
       ∃ i, findFirstIdx
              (fun s => s.sessionId &&& 0xFFFF0000 == INVALID_SESSION_ID &&& 0xFFFF0000)
              sessions = some i ∧
            SpdmAllocateReqSessionId sessions = some (0xFFFF - i) ∧
            0xFFFF - i ≠ 0) ∧
    ((∀ s ∈ sessions, s.sessionId &&& 0xFFFF0000 ≠ 0) →
       SpdmAllocateReqSessionId sessions = none) ∧
    (∀ v, SpdmAllocateReqSessionId sessions = some v → v ≠ 0) ∧
    ((∃ s ∈ sessions, s.sessionId &&& 0xFFFF = 0) →
       ∃ i, findFirstIdx
              (fun s => s.sessionId &&& 0xFFFF == INVALID_SESSION_ID &&& 0xFFFF)
              sessions = some i ∧
            SpdmAllocateRspSessionId sessions = some (0xFFFF - i) ∧
            0xFFFF - i ≠ 0) ∧
    ((∀ s ∈ sessions, s.sessionId &&& 0xFFFF ≠ 0) →
       SpdmAllocateRspSessionId sessions = none) ∧
    (∀ v, SpdmAllocateRspSessionId sessions = some v → v ≠ 0) := by
  have hreq : ∀ s : SPDM_SESSION_INFO,
      (s.sessionId &&& 0xFFFF0000 == INVALID_SESSION_ID &&& 0xFFFF0000) =
      (s.sessionId &&& 0xFFFF0000 == 0) := by
    intro s
    simp [INVALID_SESSION_ID]
  have hrsp : ∀ s : SPDM_SESSION_INFO,
      (s.sessionId &&& 0xFFFF == INVALID_SESSION_ID &&& 0xFFFF) =
      (s.sessionId &&& 0xFFFF == 0) := by
    intro s
    simp [INVALID_SESSION_ID]
  refine ⟨?_, ?_, ?_, ?_, ?_, ?_⟩
  · rintro ⟨s, hs, hfree⟩
    have hsome : (findFirstIdx
        (fun s => s.sessionId &&& 0xFFFF0000 == INVALID_SESSION_ID &&& 0xFFFF0000)
        sessions).isSome := by
      apply findFirstIdx_isSome_of_mem hs
      simp [INVALID_SESSION_ID, hfree]
    obtain ⟨i, hi⟩ := Option.isSome_iff_exists.mp hsome
    have hilt : i < sessions.length := findFirstIdx_lt_length hi
    rw [hlen] at hilt
    refine ⟨i, hi, ?_, ?_⟩
    · unfold SpdmAllocateReqSessionId
      rw [hi]
      have hmod : (0xFFFF - i) % 0x10000 = 0xFFFF - i := by omega
      simp [hmod]
    · unfold MAX_SPDM_SESSION_COUNT at hilt
      omega
  · intro hall
    unfold SpdmAllocateReqSessionId
    rw [findFirstIdx_eq_none_of_all]
    intro s hs
    simp [hreq, hall s hs]
  · intro v hv
    unfold SpdmAllocateReqSessionId at hv
    cases hfi : findFirstIdx
        (fun s => s.sessionId &&& 0xFFFF0000 == INVALID_SESSION_ID &&& 0xFFFF0000)
        sessions with
    | none => rw [hfi] at hv; simp at hv
    | some i =>
      rw [hfi] at hv
      simp at hv
      have hilt : i < sessions.length := findFirstIdx_lt_length hfi
      rw [hlen] at hilt
      unfold MAX_SPDM_SESSION_COUNT at hilt
      omega
  · rintro ⟨s, hs, hfree⟩
    have hsome : (findFirstIdx
        (fun s => s.sessionId &&& 0xFFFF == INVALID_SESSION_ID &&& 0xFFFF)
        sessions).isSome := by
      apply findFirstIdx_isSome_of_mem hs
      simp [INVALID_SESSION_ID, hfree]
    obtain ⟨i, hi⟩ := Option.isSome_iff_exists.mp hsome
    have hilt : i < sessions.length := findFirstIdx_lt_length hi
    rw [hlen] at hilt
    refine ⟨i, hi, ?_, ?_⟩
    · unfold SpdmAllocateRspSessionId
      rw [hi]
      have hmod : (0xFFFF - i) % 0x10000 = 0xFFFF - i := by omega
      simp [hmod]
    · unfold MAX_SPDM_SESSION_COUNT at hilt
      omega
  · intro hall
    unfold SpdmAllocateRspSessionId
    rw [findFirstIdx_eq_none_of_all]
    intro s hs
    simp [hrsp, hall s hs]
  · intro v hv
    unfold SpdmAllocateRspSessionId at hv
    cases hfi : findFirstIdx
        (fun s => s.sessionId &&& 0xFFFF == INVALID_SESSION_ID &&& 0xFFFF)
        sessions with
    | none => rw [hfi] at hv; simp at hv
    | some i =>
      rw [hfi] at hv
      simp at hv
      have hilt : i < sessions.length := findFirstIdx_lt_length hfi
      rw [hlen] at hilt
      unfold MAX_SPDM_SESSION_COUNT at hilt
      omega

/-- Witness for C3: on the all-free four-slot table both allocators return
    0xFFFF (= 0xFFFF - 0), which is not the sentinel 0. -/
theorem spdmAllocateSessionId_firstFree_nonzero_witness :
    SpdmAllocateReqSessionId initSessionTable ≠ none ∧
    SpdmAllocateRspSessionId initSessionTable ≠ none ∧
    SpdmAllocateReqSessionId initSessionTable ≠ some 0 ∧
    SpdmAllocateRspSessionId initSessionTable ≠ some 0 := by
  have h := spdmAllocateSessionId_firstFree_nonzero initSessionTable (by decide)
  obtain ⟨h1, _, h3, h4, _, h6⟩ := h
  obtain ⟨i, _, ha, hanz⟩ := h1 ⟨SpdmSessionInfoInit INVALID_SESSION_ID false, by decide, by decide⟩
  obtain ⟨j, _, hb, hbnz⟩ := h4 ⟨SpdmSessionInfoInit INVALID_SESSION_ID false, by decide, by decide⟩
  refine ⟨by simp [ha], by simp [hb], ?_, ?_⟩
  · rw [ha]
    simp
    omega
  · rw [hb]
    simp
    omega

/-- An element written by List.set is a member of the result. -/
theorem mem_set_self {l : List α} {i : Nat} (h : i < l.length) (a : α) :
    a ∈ l.set i a :=
  List.mem_iff_get.mpr ⟨⟨i, by simpa using h⟩, by simp⟩

/-- C7: for every non-zero 32-bit session id, on a registry not containing
    the id and with a free slot: SpdmAssignSessionId succeeds; a second
    assign of the same id fails (duplicate); SpdmFreeSessionId returns the
    slot to the free state; and a subsequent assign of the same id (with
    any UsePsk) succeeds again. -/
theorem spdmAssignSessionId_free_assign_roundtrip
    (sessions : List SPDM_SESSION_INFO) (sessionId : Nat) (usePsk usePsk' : Bool)
    (hid0 : sessionId ≠ 0) (hid32 : sessionId < 2 ^ 32)
    (hnotin : ∀ s ∈ sessions, s.sessionId ≠ sessionId)
    (hfree : ∃ s ∈ sessions, s.sessionId = INVALID_SESSION_ID) :
    ∃ s1, SpdmAssignSessionId sessions sessionId usePsk = some s1 ∧
      SpdmAssignSessionId s1 sessionId usePsk = none ∧
      ∃ s2, SpdmFreeSessionId s1 sessionId = some s2 ∧
        (∃ s ∈ s2, s.sessionId = INVALID_SESSION_ID) ∧
        ∃ s3, SpdmAssignSessionId s2 sessionId usePsk' = some s3 := by
  have hany : sessions.any (fun s => s.sessionId == sessionId) = false := by
    rw [List.any_eq_false]
    intro s hs
    simp [hnotin s hs]
  obtain ⟨sfree, hsfree, hsfree0⟩ := hfree
  have hsomefree : (findFirstIdx (fun s => s.sessionId == INVALID_SESSION_ID) sessions).isSome := by
    apply findFirstIdx_isSome_of_mem hsfree
    simp [hsfree0]
  obtain ⟨i, hi⟩ := Option.isSome_iff_exists.mp hsomefree
  have hilt : i < sessions.length := findFirstIdx_lt_length hi
  -- first assign succeeds, installing the id at index i
  have hassign1 : SpdmAssignSessionId sessions sessionId usePsk =
      some (sessions.set i (SpdmSessionInfoInit sessionId usePsk)) := by
    unfold SpdmAssignSessionId
    rw [if_neg (by simpa [INVALID_SESSION_ID] using hid0), hany, hi]
    simp
  refine ⟨sessions.set i (SpdmSessionInfoInit sessionId usePsk), hassign1, ?_, ?_⟩
  -- second assign fails: the id is now present
  · have hmem : SpdmSessionInfoInit sessionId usePsk ∈
        sessions.set i (SpdmSessionInfoInit sessionId usePsk) := by
      exact mem_set_self hilt _
    unfold SpdmAssignSessionId
    rw [if_neg (by simpa [INVALID_SESSION_ID] using hid0)]
    have : (sessions.set i (SpdmSessionInfoInit sessionId usePsk)).any
        (fun s => s.sessionId == sessionId) = true := by
      rw [List.any_eq_true]
      exact ⟨SpdmSessionInfoInit sessionId usePsk, hmem, by simp [SpdmSessionInfoInit]⟩
    rw [this]
    simp
  -- free succeeds and yields sessions.set i free-slot
  · have hfindid : findFirstIdx (fun s => s.sessionId == sessionId)
        (sessions.set i (SpdmSessionInfoInit sessionId usePsk)) = some i := by
      -- any index j found must be i, and i itself matches
      have hok : (findFirstIdx (fun s => s.sessionId == sessionId)
          (sessions.set i (SpdmSessionInfoInit sessionId usePsk))).isSome := by
        apply findFirstIdx_isSome_of_mem (x := SpdmSessionInfoInit sessionId usePsk)
        · exact mem_set_self hilt _
        · simp [SpdmSessionInfoInit]
      obtain ⟨j, hj⟩ := Option.isSome_iff_exists.mp hok
      have hjlt : j < (sessions.set i (SpdmSessionInfoInit sessionId usePsk)).length :=
        findFirstIdx_lt_length hj
      have hjp := findFirstIdx_get hj hjlt
      have hji : j = i := by
        by_contra hne
        have hjlt' : j < sessions.length := by simpa using hjlt
        have : (sessions.set i (SpdmSessionInfoInit sessionId usePsk)).get ⟨j, hjlt⟩ =
            sessions.get ⟨j, hjlt'⟩ := by
          simp [List.getElem_set_ne (Ne.symm hne)]
        rw [this] at hjp
        have hmem' : sessions.get ⟨j, hjlt'⟩ ∈ sessions := List.get_mem _ _ _
        have := hnotin _ hmem'
        simp at hjp
        exact this hjp
      rw [hji] at hj
      exact hj
    have hs2 : SpdmFreeSessionId (sessions.set i (SpdmSessionInfoInit sessionId usePsk))
        sessionId = some (sessions.set i (SpdmSessionInfoInit INVALID_SESSION_ID false)) := by
      unfold SpdmFreeSessionId
      rw [if_neg (by simpa [INVALID_SESSION_ID] using hid0), hfindid]
      simp [List.set_set]
    refine ⟨sessions.set i (SpdmSessionInfoInit INVALID_SESSION_ID false), hs2, ?_, ?_⟩
    · refine ⟨SpdmSessionInfoInit INVALID_SESSION_ID false, ?_, rfl⟩
      exact mem_set_self hilt _
    -- assign the same id again on the freed table
    · have hany2 : (sessions.set i (SpdmSessionInfoInit INVALID_SESSION_ID false)).any
          (fun s => s.sessionId == sessionId) = false := by
        rw [List.any_eq_false]
        intro s hs
        rcases List.mem_or_eq_of_mem_set hs with hmem | rfl
        · simp [hnotin s hmem]
        · simpa [SpdmSessionInfoInit, INVALID_SESSION_ID] using Ne.symm hid0
      have hfree2 : (findFirstIdx (fun s => s.sessionId == INVALID_SESSION_ID)
          (sessions.set i (SpdmSessionInfoInit INVALID_SESSION_ID false))).isSome := by
        apply findFirstIdx_isSome_of_mem (x := SpdmSessionInfoInit INVALID_SESSION_ID false)
        · exact mem_set_self hilt _
        · simp [SpdmSessionInfoInit]
      obtain ⟨k, hk⟩ := Option.isSome_iff_exists.mp hfree2
      refine ⟨(sessions.set i (SpdmSessionInfoInit INVALID_SESSION_ID false)).set k
        (SpdmSessionInfoInit sessionId usePsk'), ?_⟩
      unfold SpdmAssignSessionId
      rw [if_neg (by simpa [INVALID_SESSION_ID] using hid0), hany2, hk]
      simp

/-- Witness for C7: the spec scenario - assign 0x1234FFFF non-PSK on the
    fresh table, a second assign fails, free it, assign it again as PSK. -/
theorem spdmAssignSessionId_free_assign_roundtrip_witness :
    ∃ s1, SpdmAssignSessionId initSessionTable 0x1234FFFF false = some s1 ∧
      SpdmAssignSessionId s1 0x1234FFFF false = none ∧
      ∃ s2, SpdmFreeSessionId s1 0x1234FFFF = some s2 ∧
        (∃ s ∈ s2, s.sessionId = INVALID_SESSION_ID) ∧
        ∃ s3, SpdmAssignSessionId s2 0x1234FFFF true = some s3 :=
  spdmAssignSessionId_free_assign_roundtrip initSessionTable 0x1234FFFF false true
    (by decide) (by norm_num)
    (by decide)
    ⟨SpdmSessionInfoInit INVALID_SESSION_ID false, by decide, rfl⟩

/-- Inversion for a successful managed-buffer append. -/
theorem appendManagedBuffer_some {mb mb' : MANAGED_BUFFER} {data : List Nat}
    (h : AppendManagedBuffer mb data = some mb') :
    mb' = { mb with buffer := mb.buffer ++ data } := by
  unfold AppendManagedBuffer at h
  split at h
  · exact absurd h (by simp)
  · exact (Option.some.inj h).symm

/-- Concrete transcript for the C1 counterexample: A = [1], MutB = [2],
    MutC empty, M1M2 empty. -/
def c1Transcript : SPDM_TRANSCRIPT :=
  { messageA := { maxBufferSize := MAX_SPDM_MESSAGE_SMALL_BUFFER_SIZE, buffer := [1] }
  , messageB := { maxBufferSize := MAX_SPDM_MESSAGE_BUFFER_SIZE, buffer := [] }
  , messageC := { maxBufferSize := MAX_SPDM_MESSAGE_SMALL_BUFFER_SIZE, buffer := [] }
  , messageMutB := { maxBufferSize := MAX_SPDM_MESSAGE_BUFFER_SIZE, buffer := [2] }
  , messageMutC := { maxBufferSize := MAX_SPDM_MESSAGE_SMALL_BUFFER_SIZE, buffer := [] }
  , m1m2 := { maxBufferSize := MAX_SPDM_MESSAGE_BUFFER_SIZE, buffer := [] }
  , l1l2 := { maxBufferSize := MAX_SPDM_MESSAGE_BUFFER_SIZE, buffer := [] } }

/-- C1 counterexample: with ledgers A = [1], MutB = [2], MutC = [] and M1M2
    empty, SpdmGenerateChallengeAuthSignature with IsRequester = TRUE
    hashes and signs [2, 3] - the concatenation MutB || MutC-with-response -
    and not A || MutB || MutC = [1, 2, 3] as the claim states: MessageA is
    never appended to M1M2 on the requester path
    (SpdmCommonLibCryptoService.c lines 165-196, matching the header comment
    "Mut M1/M2 = Concatenate (MutB, MutC)" at SpdmCommonLibInternal.h
    lines 129-131). -/
theorem challengeAuthSignature_requester_omits_A :
    (SpdmGenerateChallengeAuthSignature c1Transcript true [3]).map
      (fun o => o.m1m2HashInput) = some [2, 3] ∧
    (SpdmGenerateChallengeAuthSignature c1Transcript true [3]).map
      (fun o => o.m1m2HashInput) ≠
      some (GetManagedBuffer c1Transcript.messageA ++
            GetManagedBuffer c1Transcript.messageMutB ++
            (GetManagedBuffer c1Transcript.messageMutC ++ [3])) := by
  constructor
  · decide
  · decide

/-- C1 (amended): on an M1M2 ledger that starts empty, the challenge-auth
    signature hashes and signs exactly MutB || MutC (with the response
    appended to MutC) using the requester asymmetric algorithm when
    IsRequester = TRUE, and exactly A || B || C (with the response appended
    to C) using the responder base algorithm when IsRequester = FALSE. -/
theorem challengeAuthSignature_m1m2_composition
    (t : SPDM_TRANSCRIPT) (resp : List Nat) (out : ChallengeAuthSignOutcome)
    (hempty : GetManagedBuffer t.m1m2 = []) :
    (SpdmGenerateChallengeAuthSignature t true resp = some out →
      out.m1m2HashInput =
        GetManagedBuffer t.messageMutB ++ (GetManagedBuffer t.messageMutC ++ resp) ∧
      out.signAlgoUsed = SignAlgoUsed.reqBaseAsymAlg) ∧
    (SpdmGenerateChallengeAuthSignature t false resp = some out →
      out.m1m2HashInput =
        GetManagedBuffer t.messageA ++
        (GetManagedBuffer t.messageB ++
         (GetManagedBuffer t.messageC ++ resp)) ∧
      out.signAlgoUsed = SignAlgoUsed.baseAsymAlgo) := by
  unfold GetManagedBuffer at hempty
  constructor
  · intro h
    unfold SpdmGenerateChallengeAuthSignature at h
    simp only [if_pos] at h
    split at h
    · exact absurd h (by simp)
    rename_i mutC h1
    split at h
    · exact absurd h (by simp)
    rename_i m1 h2
    split at h
    · exact absurd h (by simp)
    rename_i m2 h3
    have e1 := appendManagedBuffer_some h1
    have e2 := appendManagedBuffer_some h2
    have e3 := appendManagedBuffer_some h3
    have hout := Option.some.inj h
    subst e1 e2 e3
    rw [← hout]
    simp [GetManagedBuffer, hempty]
  · intro h
    unfold SpdmGenerateChallengeAuthSignature at h
    simp only [Bool.false_eq_true, if_false] at h
    split at h
    · exact absurd h (by simp)
    rename_i mc h1
    split at h
    · exact absurd h (by simp)
    rename_i m1 h2
    split at h
    · exact absurd h (by simp)
    rename_i m2 h3
    split at h
    · exact absurd h (by simp)
    rename_i m3 h4
    have e1 := appendManagedBuffer_some h1
    have e2 := appendManagedBuffer_some h2
    have e3 := appendManagedBuffer_some h3
    have e4 := appendManagedBuffer_some h4
    have hout := Option.some.inj h
    subst e1 e2 e3 e4
    rw [← hout]
    simp [GetManagedBuffer, hempty]

/-- Witness for C1's amended theorem at the concrete transcript of the
    counterexample: the requester hash input is MutB || (MutC || response)
    = [2, 3]. -/
theorem challengeAuthSignature_m1m2_composition_witness :
    (SpdmGenerateChallengeAuthSignature c1Transcript true [3]).map
      (fun o => o.m1m2HashInput) =
      some (GetManagedBuffer c1Transcript.messageMutB ++
            (GetManagedBuffer c1Transcript.messageMutC ++ [3])) := by
  cases hx : SpdmGenerateChallengeAuthSignature c1Transcript true [3] with
  | none => exact absurd hx (by decide)
  | some out =>
    have h := (challengeAuthSignature_m1m2_composition c1Transcript [3] out (by decide)).1 hx
    simp [h.1]

/-- Inversion for a successful TH(A..K) computation: the produced buffer is
    MessageA, then the cert-chain hash only when a chain was supplied, then
    MessageK. -/
theorem calculateTHCurrAK_buffer (hash : List Nat → List Nat)
    (messageA messageK : MANAGED_BUFFER) (certBuffer : Option (List Nat))
    (th : MANAGED_BUFFER)
    (h : SpdmCalculateTHCurrAK hash messageA messageK certBuffer = some th) :
    GetManagedBuffer th =
      GetManagedBuffer messageA ++ certBuffer.elim [] hash ++
      GetManagedBuffer messageK := by
  unfold SpdmCalculateTHCurrAK at h
  split at h
  · exact absurd h (by simp)
  rename_i th1 h1
  cases certBuffer with
  | none =>
    dsimp only at h
    split at h
    · exact absurd h (by simp)
    rename_i th3 h3
    have e1 := appendManagedBuffer_some h1
    have e3 := appendManagedBuffer_some h3
    have hout := Option.some.inj h
    subst e1 e3
    subst hout
    simp [GetManagedBuffer, InitManagedBuffer]
  | some cert =>
    dsimp only at h
    split at h
    · exact absurd h (by simp)
    rename_i th2 h2
    split at h
    · exact absurd h (by simp)
    rename_i th3 h3
    have e1 := appendManagedBuffer_some h1
    have e2 := appendManagedBuffer_some h2
    have e3 := appendManagedBuffer_some h3
    have hout := Option.some.inj h
    subst e1 e2 e3
    subst hout
    simp [GetManagedBuffer, InitManagedBuffer]

/-- C4: a successful SpdmCalculateTHCurrAK with a certificate chain yields
    exactly A || H(cert_chain) || MessageK, and the TH built for the PSK
    exchange HMAC (cert argument NULL) is exactly A || MessageK - the
    H(cert) term contributes zero bytes, it is not a zeroed placeholder. -/
theorem calculateTHCurrAK_concatenation (hash : List Nat → List Nat)
    (messageA messageK : MANAGED_BUFFER) (cert : List Nat)
    (th thPsk : MANAGED_BUFFER)
    (h1 : SpdmCalculateTHCurrAK hash messageA messageK (some cert) = some th)
    (h2 : SpdmGeneratePskExchangeRspHmacTH hash messageA messageK = some thPsk) :
    GetManagedBuffer th =
      GetManagedBuffer messageA ++ hash cert ++ GetManagedBuffer messageK ∧
    GetManagedBuffer thPsk =
      GetManagedBuffer messageA ++ GetManagedBuffer messageK ∧
    GetManagedBufferSize thPsk =
      GetManagedBufferSize messageA + GetManagedBufferSize messageK := by
  have hb1 := calculateTHCurrAK_buffer hash messageA messageK (some cert) th h1
  have hb2 := calculateTHCurrAK_buffer hash messageA messageK none thPsk h2
  simp at hb1 hb2
  refine ⟨by rw [hb1, List.append_assoc], by rw [hb2], ?_⟩
  unfold GetManagedBufferSize
  unfold GetManagedBuffer at hb2
  rw [hb2]
  simp

/-- Witness for C4: A = [1], K = [2], cert = [9] with a mock hash returning
    [7]: the signing TH is [1, 7, 2] and the PSK TH is [1, 2]. -/
theorem calculateTHCurrAK_concatenation_witness :
    GetManagedBuffer
        { maxBufferSize := MAX_SPDM_MESSAGE_BUFFER_SIZE, buffer := [1, 7, 2] } =
      GetManagedBuffer { maxBufferSize := MAX_SPDM_MESSAGE_BUFFER_SIZE, buffer := [1] } ++
      (fun _ : List Nat => [7]) [9] ++
      GetManagedBuffer { maxBufferSize := MAX_SPDM_MESSAGE_BUFFER_SIZE, buffer := [2] } ∧
    GetManagedBuffer
        { maxBufferSize := MAX_SPDM_MESSAGE_BUFFER_SIZE, buffer := [1, 2] } =
      GetManagedBuffer { maxBufferSize := MAX_SPDM_MESSAGE_BUFFER_SIZE, buffer := [1] } ++
      GetManagedBuffer { maxBufferSize := MAX_SPDM_MESSAGE_BUFFER_SIZE, buffer := [2] } ∧
    GetManagedBufferSize
        { maxBufferSize := MAX_SPDM_MESSAGE_BUFFER_SIZE, buffer := [1, 2] } =
      GetManagedBufferSize { maxBufferSize := MAX_SPDM_MESSAGE_BUFFER_SIZE, buffer := [1] } +
      GetManagedBufferSize { maxBufferSize := MAX_SPDM_MESSAGE_BUFFER_SIZE, buffer := [2] } :=
  calculateTHCurrAK_concatenation (fun _ => [7])
    { maxBufferSize := MAX_SPDM_MESSAGE_BUFFER_SIZE, buffer := [1] }
    { maxBufferSize := MAX_SPDM_MESSAGE_BUFFER_SIZE, buffer := [2] }
    [9]
    { maxBufferSize := MAX_SPDM_MESSAGE_BUFFER_SIZE, buffer := [1, 7, 2] }
    { maxBufferSize := MAX_SPDM_MESSAGE_BUFFER_SIZE, buffer := [1, 2] }
    (by decide) (by decide)

/-- C2: (a) when the encapsulated responder answers a CHALLENGE with slot
    index 0xFF and produces a CHALLENGE_AUTH (no error), the slot field of
    the auth attribute (Param1) is 0xF and Param2 is 0; (b) the requester,
    having issued a slot-0xFF CHALLENGE, returns DeviceError whenever the
    response's auth-attribute slot field differs from 0xF or its Param2 is
    non-zero. -/
theorem challengeAuth_slotFF_attr_rules
    (t : SPDM_TRANSCRIPT) (slotCount : Nat) (requestSizeOk : Bool)
    (reqParam2 : Nat) (requestBytes : List Nat)
    (blocks : List SPDM_MEASUREMENT_BLOCK_DMTF) (scratch : List Nat)
    (responseBytesNoSig : List Nat) (signOk : Bool)
    (tr : SPDM_TRANSCRIPT) (receiveStateOk : Bool) (capabilityFlags : Nat)
    (peerCertChainProvisionSize : Nat) (requestBytesR : List Nat)
    (sendOk receiveOk respSizeOkHeader : Bool)
    (errorHandlerStatus : RETURN_STATUS) (respSizeOkAuth : Bool)
    (respParam1 respParam2 : Nat)
    (respSizeOkBody certChainHashOk respSizeOkFull : Bool)
    (respBytesNoSig : List Nat) (sigOk encapOk : Bool)
    (hprov : peerCertChainProvisionSize ≠ 0)
    (hbad : challengeAuthAttrSlotNum respParam1 ≠ 0xF ∨ respParam2 ≠ 0) :
    (∀ out, SpdmGetEncapResponseChallengeAuth t slotCount requestSizeOk 0xFF
        reqParam2 requestBytes blocks scratch responseBytesNoSig signOk = out →
      out.isError = false →
      challengeAuthAttrSlotNum out.respParam1 = 0xF ∧ out.respParam2 = 0) ∧
    (TrySpdmChallenge tr receiveStateOk capabilityFlags
        peerCertChainProvisionSize 0xFF requestBytesR sendOk receiveOk
        respSizeOkHeader false errorHandlerStatus true respSizeOkAuth
        respParam1 respParam2 respSizeOkBody certChainHashOk respSizeOkFull
        respBytesNoSig sigOk encapOk).status =
      RETURN_STATUS.returnDeviceError := by
  constructor
  · intro out heq hok
    cases requestSizeOk with
    | false =>
      rw [← heq] at hok
      simp [SpdmGetEncapResponseChallengeAuth] at hok
    | true =>
      cases happ : AppendManagedBuffer t.messageMutC requestBytes with
      | none =>
        rw [← heq] at hok
        simp [SpdmGetEncapResponseChallengeAuth, happ] at hok
      | some mutC =>
        cases hms : SpdmGenerateMeasurementSummaryHash reqParam2 blocks scratch with
        | none =>
          rw [← heq] at hok
          simp [SpdmGetEncapResponseChallengeAuth, happ, hms] at hok
        | some sum =>
          cases hgen : SpdmGenerateChallengeAuthSignature
              { t with messageMutC := mutC } true responseBytesNoSig with
          | none =>
            rw [← heq] at hok
            simp [SpdmGetEncapResponseChallengeAuth, happ, hms, hgen] at hok
          | some sout =>
            cases signOk with
            | false =>
              rw [← heq] at hok
              simp [SpdmGetEncapResponseChallengeAuth, happ, hms, hgen] at hok
            | true =>
              rw [← heq]
              simp [SpdmGetEncapResponseChallengeAuth, happ, hms, hgen,
                challengeAuthAttrSlotNum]
  · have hprovb : (peerCertChainProvisionSize == 0) = false := by
      simpa using hprov
    unfold TrySpdmChallenge
    cases receiveStateOk with
    | false => simp
    | true =>
      simp only [Bool.not_true, Bool.false_eq_true, if_false]
      by_cases hcap :
          (capabilityFlags &&& SPDM_GET_CAPABILITIES_RESPONSE_FLAGS_CHAL_CAP == 0) = true
      · rw [if_pos hcap]
      · rw [if_neg hcap]
        rw [if_neg (by decide)]
        rw [if_neg (by simp [hprovb])]
        cases sendOk with
        | false => simp
        | true =>
          simp only [Bool.not_true, Bool.false_eq_true, if_false]
          cases receiveOk with
          | false => simp
          | true =>
            simp only [Bool.not_true, Bool.false_eq_true, if_false]
            cases respSizeOkHeader with
            | false => simp
            | true =>
              simp only [Bool.not_true, Bool.false_eq_true, if_false, if_false]
              cases respSizeOkAuth with
              | false => simp
              | true =>
                simp only [Bool.not_true, Bool.false_eq_true, if_false]
                rcases hbad with hb | hb
                · rw [if_pos (by simp [hb])]
                · by_cases hslotf : challengeAuthAttrSlotNum respParam1 = 0xF
                  · rw [if_neg (by simp [hslotf])]
                    rw [if_pos (by simp [hb])]
                  · rw [if_pos (by simp [hslotf])]

/-- Witness for C2: a slot-0xFF encapsulated CHALLENGE (hash type None)
    produces a response with auth-attribute slot field 0xF and Param2 = 0;
    and a requester slot-0xFF challenge whose response carries slot field 0
    returns DeviceError. -/
theorem challengeAuth_slotFF_attr_rules_witness :
    (TrySpdmChallenge initTranscript true 0x4 1 0xFF [5] true true true false
        RETURN_STATUS.returnSuccess true true 0 0 true true true [] true
        true).status = RETURN_STATUS.returnDeviceError ∧
    challengeAuthAttrSlotNum
        (SpdmGetEncapResponseChallengeAuth initTranscript 1 true 0xFF 0 [5]
          [] [] [6] true).respParam1 = 0xF ∧
    (SpdmGetEncapResponseChallengeAuth initTranscript 1 true 0xFF 0 [5]
        [] [] [6] true).respParam2 = 0 := by
  have h := challengeAuth_slotFF_attr_rules initTranscript 1 true 0 [5] [] []
      [6] true initTranscript true 0x4 1 [5] true true true
      RETURN_STATUS.returnSuccess true 0 0 true true true [] true true
      (by decide) (Or.inl (by decide))
  refine ⟨h.2, ?_, ?_⟩
  · exact (h.1 _ rfl (by decide)).1
  · exact (h.1 _ rfl (by decide)).2

/-- C8: if the CHALLENGE_AUTH response carries BasicMutAuthReq = 1 while
    the local MUT_AUTH_CAP capability flag is clear, the requester
    challenge returns DeviceError and the encapsulated mutual-auth flow is
    never started. -/
theorem challenge_basicMutAuth_without_cap
    (t : SPDM_TRANSCRIPT) (receiveStateOk : Bool) (capabilityFlags : Nat)
    (peerCertChainProvisionSize slotNum : Nat) (requestBytes : List Nat)
    (sendOk receiveOk respSizeOkHeader : Bool)
    (errorHandlerStatus : RETURN_STATUS) (respSizeOkAuth : Bool)
    (respParam1 respParam2 : Nat)
    (respSizeOkBody certChainHashOk respSizeOkFull : Bool)
    (respBytesNoSig : List Nat) (sigOk encapOk : Bool)
    (hmut : challengeAuthAttrBasicMutAuthReq respParam1 = 1)
    (hcap : capabilityFlags &&& SPDM_GET_CAPABILITIES_REQUEST_FLAGS_MUT_AUTH_CAP = 0)
    (hslot : slotNum < MAX_SPDM_SLOT_COUNT ∨
             (slotNum = 0xFF ∧ peerCertChainProvisionSize ≠ 0)) :
    (TrySpdmChallenge t receiveStateOk capabilityFlags
        peerCertChainProvisionSize slotNum requestBytes sendOk receiveOk
        respSizeOkHeader false errorHandlerStatus true respSizeOkAuth
        respParam1 respParam2 respSizeOkBody certChainHashOk respSizeOkFull
        respBytesNoSig sigOk encapOk).status =
      RETURN_STATUS.returnDeviceError ∧
    (TrySpdmChallenge t receiveStateOk capabilityFlags
        peerCertChainProvisionSize slotNum requestBytes sendOk receiveOk
        respSizeOkHeader false errorHandlerStatus true respSizeOkAuth
        respParam1 respParam2 respSizeOkBody certChainHashOk respSizeOkFull
        respBytesNoSig sigOk encapOk).encapStarted = false := by
  have hslot1 : (decide (MAX_SPDM_SLOT_COUNT ≤ slotNum) && slotNum != 0xFF) = false := by
    rcases hslot with h | ⟨h, _⟩
    · simp
      intro hge
      omega
    · simp [h]
  have hslot2 : (slotNum == 0xFF && peerCertChainProvisionSize == 0) = false := by
    rcases hslot with h | ⟨_, h⟩
    · have : (slotNum == 0xFF) = false := by
        simp
        unfold MAX_SPDM_SLOT_COUNT at h
        omega
      simp [this]
    · simp [h]
  unfold TrySpdmChallenge
  cases receiveStateOk with
  | false => exact ⟨rfl, rfl⟩
  | true =>
    simp only [Bool.not_true, Bool.false_eq_true, if_false]
    by_cases hc : (capabilityFlags &&& SPDM_GET_CAPABILITIES_RESPONSE_FLAGS_CHAL_CAP == 0) = true
    · rw [if_pos hc]
      exact ⟨rfl, rfl⟩
    · rw [if_neg hc, if_neg (by simp [hslot1]), if_neg (by simp [hslot2])]
      cases sendOk with
      | false => exact ⟨rfl, rfl⟩
      | true =>
        simp only [Bool.not_true, Bool.false_eq_true, if_false]
        cases receiveOk with
        | false => exact ⟨rfl, rfl⟩
        | true =>
          simp only [Bool.not_true, Bool.false_eq_true, if_false]
          cases respSizeOkHeader with
          | false => exact ⟨rfl, rfl⟩
          | true =>
            simp only [Bool.not_true, Bool.false_eq_true, if_false, if_false]
            cases respSizeOkAuth with
            | false => exact ⟨rfl, rfl⟩
            | true =>
              simp only [Bool.not_true, Bool.false_eq_true, if_false]
              by_cases h1 : (slotNum == 0xFF &&
                  challengeAuthAttrSlotNum respParam1 != 0xF) = true
              · rw [if_pos h1]
                exact ⟨rfl, rfl⟩
              · rw [if_neg h1]
                by_cases h2 : (slotNum == 0xFF && respParam2 != 0) = true
                · rw [if_pos h2]
                  exact ⟨rfl, rfl⟩
                · rw [if_neg h2]
                  by_cases h3 : (slotNum != 0xFF &&
                      challengeAuthAttrSlotNum respParam1 != slotNum) = true
                  · rw [if_pos h3]
                    exact ⟨rfl, rfl⟩
                  · rw [if_neg h3]
                    by_cases h4 : (slotNum != 0xFF && respParam2 != 2 ^ slotNum) = true
                    · rw [if_pos h4]
                      exact ⟨rfl, rfl⟩
                    · rw [if_neg h4]
                      rw [if_pos (by simp [hmut, hcap])]
                      exact ⟨rfl, rfl⟩

/-- Witness for C8: a slot-0 challenge whose response has the
    BasicMutAuthReq bit set (Param1 = 0x80) while the capability flags are
    only CHAL_CAP: DeviceError, and no encapsulated flow. -/
theorem challenge_basicMutAuth_without_cap_witness :
    (TrySpdmChallenge initTranscript true 0x4 0 0 [5] true true true false
        RETURN_STATUS.returnSuccess true true 0x80 1 true true true [] true
        true).status = RETURN_STATUS.returnDeviceError ∧
    (TrySpdmChallenge initTranscript true 0x4 0 0 [5] true true true false
        RETURN_STATUS.returnSuccess true true 0x80 1 true true true [] true
        true).encapStarted = false :=
  challenge_basicMutAuth_without_cap initTranscript true 0x4 0 0 [5] true
    true true RETURN_STATUS.returnSuccess true 0x80 1 true true true [] true
    true (by decide) (by decide) (Or.inl (by decide))

/-- C6: (a) when the requester challenge completes successfully, the M1M2
    ledger it leaves behind has length zero (ResetManagedBuffer at
    SpdmRequesterLibChallenge.c line 230); (b) when the encapsulated
    challenge-auth response is produced, M1M2 is likewise reset
    (SpdmRequesterLibEncapChallengeAuth.c line 138); (c) appending to a
    managed buffer never modifies the bytes already held: the old contents
    are a prefix of the new contents, both for the status-checked append
    and for the appends whose status the protocol code discards. -/
theorem challenge_resets_m1m2_appends_preserve
    (t : SPDM_TRANSCRIPT) (receiveStateOk : Bool) (capabilityFlags : Nat)
    (peerCertChainProvisionSize slotNum : Nat) (requestBytes : List Nat)
    (sendOk receiveOk respSizeOkHeader : Bool)
    (errorHandlerStatus : RETURN_STATUS)
    (respIsChallengeAuth respSizeOkAuth : Bool)
    (respParam1 respParam2 : Nat)
    (respSizeOkBody certChainHashOk respSizeOkFull : Bool)
    (respBytesNoSig : List Nat) (sigOk encapOk : Bool)
    (te : SPDM_TRANSCRIPT) (slotCount : Nat) (requestSizeOk : Bool)
    (reqParam1 reqParam2 : Nat) (requestBytesE : List Nat)
    (blocks : List SPDM_MEASUREMENT_BLOCK_DMTF) (scratch : List Nat)
    (responseBytesNoSig : List Nat) (signOk : Bool) :
    ((TrySpdmChallenge t receiveStateOk capabilityFlags
        peerCertChainProvisionSize slotNum requestBytes sendOk receiveOk
        respSizeOkHeader false errorHandlerStatus respIsChallengeAuth
        respSizeOkAuth respParam1 respParam2 respSizeOkBody certChainHashOk
        respSizeOkFull respBytesNoSig sigOk encapOk).status =
          RETURN_STATUS.returnSuccess →
      GetManagedBuffer
        (TrySpdmChallenge t receiveStateOk capabilityFlags
          peerCertChainProvisionSize slotNum requestBytes sendOk receiveOk
          respSizeOkHeader false errorHandlerStatus respIsChallengeAuth
          respSizeOkAuth respParam1 respParam2 respSizeOkBody certChainHashOk
          respSizeOkFull respBytesNoSig sigOk encapOk).transcript.m1m2 = []) ∧
    (∀ out, SpdmGetEncapResponseChallengeAuth te slotCount requestSizeOk
        reqParam1 reqParam2 requestBytesE blocks scratch responseBytesNoSig
        signOk = out → out.isError = false →
      GetManagedBuffer out.transcript.m1m2 = []) ∧
    (∀ mb data mb', AppendManagedBuffer mb data = some mb' →
      (GetManagedBuffer mb').take (GetManagedBufferSize mb) =
        GetManagedBuffer mb ∧
      GetManagedBuffer mb' = GetManagedBuffer mb ++ data) ∧
    (∀ mb data,
      (GetManagedBuffer (appendDiscardingStatus mb data)).take
        (GetManagedBufferSize mb) = GetManagedBuffer mb) := by
  refine ⟨?_, ?_, ?_, ?_⟩
  · intro hsucc
    unfold TrySpdmChallenge at hsucc ⊢
    cases receiveStateOk with
    | false => simp at hsucc
    | true =>
      simp only [Bool.not_true, Bool.false_eq_true, if_false] at hsucc ⊢
      by_cases hc :
          (capabilityFlags &&& SPDM_GET_CAPABILITIES_RESPONSE_FLAGS_CHAL_CAP == 0) = true
      · rw [if_pos hc] at hsucc
        simp at hsucc
      · rw [if_neg hc] at hsucc ⊢
        by_cases hs1 : (decide (MAX_SPDM_SLOT_COUNT ≤ slotNum) && slotNum != 0xFF) = true
        · rw [if_pos hs1] at hsucc
          simp at hsucc
        · rw [if_neg hs1] at hsucc ⊢
          by_cases hs2 : (slotNum == 0xFF && peerCertChainProvisionSize == 0) = true
          · rw [if_pos hs2] at hsucc
            simp at hsucc
          · rw [if_neg hs2] at hsucc ⊢
            cases sendOk with
            | false => simp at hsucc
            | true =>
              simp only [Bool.not_true, Bool.false_eq_true, if_false] at hsucc ⊢
              cases receiveOk with
              | false => simp at hsucc
              | true =>
                simp only [Bool.not_true, Bool.false_eq_true, if_false] at hsucc ⊢
                cases respSizeOkHeader with
                | false => simp at hsucc
                | true =>
                  simp only [Bool.not_true, Bool.false_eq_true, if_false, if_false]
                    at hsucc ⊢
                  cases respIsChallengeAuth with
                  | false => simp at hsucc
                  | true =>
                    simp only [Bool.not_true, Bool.false_eq_true, if_false] at hsucc ⊢
                    cases respSizeOkAuth with
                    | false => simp at hsucc
                    | true =>
                      simp only [Bool.not_true, Bool.false_eq_true, if_false] at hsucc ⊢
                      by_cases h1 : (slotNum == 0xFF &&
                          challengeAuthAttrSlotNum respParam1 != 0xF) = true
                      · rw [if_pos h1] at hsucc
                        simp at hsucc
                      · rw [if_neg h1] at hsucc ⊢
                        by_cases h2 : (slotNum == 0xFF && respParam2 != 0) = true
                        · rw [if_pos h2] at hsucc
                          simp at hsucc
                        · rw [if_neg h2] at hsucc ⊢
                          by_cases h3 : (slotNum != 0xFF &&
                              challengeAuthAttrSlotNum respParam1 != slotNum) = true
                          · rw [if_pos h3] at hsucc
                            simp at hsucc
                          · rw [if_neg h3] at hsucc ⊢
                            by_cases h4 : (slotNum != 0xFF &&
                                respParam2 != 2 ^ slotNum) = true
                            · rw [if_pos h4] at hsucc
                              simp at hsucc
                            · rw [if_neg h4] at hsucc ⊢
                              by_cases h5 : (challengeAuthAttrBasicMutAuthReq respParam1 == 1
                                  && capabilityFlags &&&
                                     SPDM_GET_CAPABILITIES_REQUEST_FLAGS_MUT_AUTH_CAP == 0) = true
                              · rw [if_pos h5] at hsucc
                                simp at hsucc
                              · rw [if_neg h5] at hsucc ⊢
                                cases respSizeOkBody with
                                | false => simp at hsucc
                                | true =>
                                  simp only [Bool.not_true, Bool.false_eq_true, if_false]
                                    at hsucc ⊢
                                  cases certChainHashOk with
                                  | false => simp at hsucc
                                  | true =>
                                    simp only [Bool.not_true, Bool.false_eq_true, if_false]
                                      at hsucc ⊢
                                    cases respSizeOkFull with
                                    | false => simp at hsucc
                                    | true =>
                                      simp only [Bool.not_true, Bool.false_eq_true,
                                        if_false] at hsucc ⊢
                                      cases sigOk with
                                      | false => simp at hsucc
                                      | true =>
                                        simp only [Bool.not_true, Bool.false_eq_true,
                                          if_false] at hsucc ⊢
                                        by_cases h6 :
                                            (challengeAuthAttrBasicMutAuthReq respParam1
                                              == 1) = true
                                        · rw [if_pos h6] at hsucc ⊢
                                          cases encapOk with
                                          | false => simp at hsucc
                                          | true =>
                                            simp [GetManagedBuffer, ResetManagedBuffer]
                                        · rw [if_neg h6] at hsucc ⊢
                                          simp [GetManagedBuffer, ResetManagedBuffer]
  · intro out heq hok
    cases requestSizeOk with
    | false =>
      rw [← heq] at hok
      simp [SpdmGetEncapResponseChallengeAuth] at hok
    | true =>
      cases happ : AppendManagedBuffer te.messageMutC requestBytesE with
      | none =>
        rw [← heq] at hok
        simp [SpdmGetEncapResponseChallengeAuth, happ] at hok
      | some mutC =>
        by_cases hsl : (reqParam1 != 0xFF && decide (slotCount ≤ reqParam1)) = true
        · rw [← heq] at hok
          simp [SpdmGetEncapResponseChallengeAuth, happ, hsl] at hok
        · cases hms : SpdmGenerateMeasurementSummaryHash reqParam2 blocks scratch with
          | none =>
            rw [← heq] at hok
            simp [SpdmGetEncapResponseChallengeAuth, happ, hsl, hms] at hok
          | some sum =>
            cases hgen : SpdmGenerateChallengeAuthSignature
                { te with messageMutC := mutC } true responseBytesNoSig with
            | none =>
              rw [← heq] at hok
              simp [SpdmGetEncapResponseChallengeAuth, happ, hsl, hms, hgen] at hok
            | some sout =>
              cases signOk with
              | false =>
                rw [← heq] at hok
                simp [SpdmGetEncapResponseChallengeAuth, happ, hsl, hms, hgen] at hok
              | true =>
                rw [← heq]
                simp [SpdmGetEncapResponseChallengeAuth, happ, hsl, hms, hgen,
                  GetManagedBuffer, ResetManagedBuffer]
  · intro mb data mb' h
    have e := appendManagedBuffer_some h
    subst e
    constructor
    · simp [GetManagedBuffer, GetManagedBufferSize, List.take_left]
    · simp [GetManagedBuffer]
  · intro mb data
    unfold appendDiscardingStatus
    cases h : AppendManagedBuffer mb data with
    | none => simp [GetManagedBuffer, GetManagedBufferSize]
    | some mb' =>
      have e := appendManagedBuffer_some h
      subst e
      simp [GetManagedBuffer, GetManagedBufferSize, List.take_left]

/-- Witness for C6: a concrete successful challenge and encapsulated
    challenge-auth leave M1M2 empty, and a concrete append preserves the
    prior bytes [1, 2]. -/
theorem challenge_resets_m1m2_appends_preserve_witness :
    GetManagedBuffer (TrySpdmChallenge initTranscript true 0x4 1 0 [5] true
        true true false RETURN_STATUS.returnSuccess true true 0 1 true true
        true [] true true).transcript.m1m2 = [] ∧
    GetManagedBuffer (SpdmGetEncapResponseChallengeAuth initTranscript 1
        true 0xFF 0 [5] [] [] [6] true).transcript.m1m2 = [] ∧
    (GetManagedBuffer
        { maxBufferSize := 4, buffer := [1, 2, 3] : MANAGED_BUFFER }).take
      (GetManagedBufferSize { maxBufferSize := 4, buffer := [1, 2] }) =
      GetManagedBuffer { maxBufferSize := 4, buffer := [1, 2] } ∧
    (GetManagedBuffer
        (appendDiscardingStatus { maxBufferSize := 4, buffer := [1, 2] } [3])).take
      (GetManagedBufferSize { maxBufferSize := 4, buffer := [1, 2] }) =
      GetManagedBuffer { maxBufferSize := 4, buffer := [1, 2] } := by
  have h := challenge_resets_m1m2_appends_preserve initTranscript true 0x4 1
      0 [5] true true true RETURN_STATUS.returnSuccess true true 0 1 true
      true true [] true true initTranscript 1 true 0xFF 0 [5] [] [] [6] true
  refine ⟨h.1 (by decide), h.2.1 _ rfl (by decide), ?_, ?_⟩
  · exact (h.2.2.1 { maxBufferSize := 4, buffer := [1, 2] } [3]
      { maxBufferSize := 4, buffer := [1, 2, 3] } (by decide)).1
  · exact h.2.2.2 { maxBufferSize := 4, buffer := [1, 2] } [3]

/-- C10 counterexample: with SlotCount = 1 the responder challenge handler
    generates the InvalidRequest error for a request with slot 0 and
    measurement-summary type 7 (an invalid type), although the slot number
    is not strictly greater than SlotCount - so "InvalidRequest iff
    Param1 > SlotCount" fails in the forward direction
    (SpdmResponderLibChallengeAuth.c lines 207-211). -/
theorem responseChallenge_invalidRequest_not_only_slot :
    (SpdmGetResponseChallenge initTranscript 1 0 7 [] true true true []).isError
        = true ∧
    (SpdmGetResponseChallenge initTranscript 1 0 7 [] true true true []).errorCode
        = SPDM_ERROR_CODE_INVALID_REQUEST ∧
    ¬ 1 < 0 := by
  refine ⟨by decide, by decide, by decide⟩

/-- C10 (amended): SpdmGetResponseChallenge generates the InvalidRequest
    error response iff the requested slot (Param1) is strictly greater than
    SlotCount or the measurement-summary-hash computation fails (invalid
    type in Param2); a request whose slot equals SlotCount passes the slot
    check and is processed (it succeeds whenever the remaining steps
    succeed), whereas the encapsulated challenge-auth handler rejects with
    InvalidRequest every slot greater than or equal to SlotCount other than
    0xFF. -/
theorem responseChallenge_slot_check_boundary
    (t : SPDM_TRANSCRIPT) (slotCount reqParam1 reqParam2 : Nat)
    (blocks : List SPDM_MEASUREMENT_BLOCK_DMTF)
    (privatePemPresent rsaKeyOk rsaSignOk : Bool) (respBytes : List Nat)
    (tE : SPDM_TRANSCRIPT) (slotCountE : Nat) (requestSizeOkE : Bool)
    (reqParam1E reqParam2E : Nat) (requestBytesE : List Nat)
    (blocksE : List SPDM_MEASUREMENT_BLOCK_DMTF) (scratchE : List Nat)
    (respBytesE : List Nat) (signOkE : Bool) :
    (((SpdmGetResponseChallenge t slotCount reqParam1 reqParam2 blocks
          privatePemPresent rsaKeyOk rsaSignOk respBytes).isError = true ∧
      (SpdmGetResponseChallenge t slotCount reqParam1 reqParam2 blocks
          privatePemPresent rsaKeyOk rsaSignOk respBytes).errorCode =
        SPDM_ERROR_CODE_INVALID_REQUEST) ↔
      (slotCount < reqParam1 ∨
       CalculateMeasurementSummaryHash reqParam2 blocks = none)) ∧
    ((∃ s, CalculateMeasurementSummaryHash reqParam2 blocks = some s) →
      privatePemPresent = true → rsaKeyOk = true → rsaSignOk = true →
      (SpdmGetResponseChallenge t slotCount slotCount reqParam2 blocks
          privatePemPresent rsaKeyOk rsaSignOk respBytes).isError = false) ∧
    (reqParam1E ≠ 0xFF → slotCountE ≤ reqParam1E →
      (SpdmGetEncapResponseChallengeAuth tE slotCountE requestSizeOkE
          reqParam1E reqParam2E requestBytesE blocksE scratchE respBytesE
          signOkE).isError = true ∧
      (SpdmGetEncapResponseChallengeAuth tE slotCountE requestSizeOkE
          reqParam1E reqParam2E requestBytesE blocksE scratchE respBytesE
          signOkE).errorCode = SPDM_ERROR_CODE_INVALID_REQUEST) := by
  refine ⟨?_, ?_, ?_⟩
  · unfold SpdmGetResponseChallenge
    by_cases hs : slotCount < reqParam1
    · rw [if_pos hs]
      simp [hs]
    · rw [if_neg hs]
      cases hms : CalculateMeasurementSummaryHash reqParam2 blocks with
      | none =>
        simp [hms]
      | some s =>
        simp only [hms]
        cases hok : (SpdmGenerateChallengeSignature t privatePemPresent
            rsaKeyOk rsaSignOk respBytes).ok with
        | false =>
          simp [hok, hs, SPDM_ERROR_CODE_UNSUPPORTED_REQUEST,
            SPDM_ERROR_CODE_INVALID_REQUEST]
        | true =>
          simp [hok, hs]
  · rintro ⟨s, hms⟩ hpem hkey hsign
    unfold SpdmGetResponseChallenge
    rw [if_neg (by omega)]
    simp only [hms]
    have hok : (SpdmGenerateChallengeSignature t privatePemPresent rsaKeyOk
        rsaSignOk respBytes).ok = true := by
      unfold SpdmGenerateChallengeSignature
      simp [hpem, hkey, hsign]
    simp [hok]
  · intro hne hge
    have hcond : (reqParam1E != 0xFF && decide (slotCountE ≤ reqParam1E)) = true := by
      simp [hne, hge]
    cases requestSizeOkE with
    | false => exact ⟨by simp [SpdmGetEncapResponseChallengeAuth], by
        simp [SpdmGetEncapResponseChallengeAuth]⟩
    | true =>
      cases happ : AppendManagedBuffer tE.messageMutC requestBytesE with
      | none =>
        constructor
        · simp [SpdmGetEncapResponseChallengeAuth, happ]
        · simp [SpdmGetEncapResponseChallengeAuth, happ]
      | some mutC =>
        constructor
        · simp [SpdmGetEncapResponseChallengeAuth, happ, hcond]
        · simp [SpdmGetEncapResponseChallengeAuth, happ, hcond]

/-- Witness for C10's amended theorem: slot 2 with SlotCount 1 is rejected
    with InvalidRequest; slot = SlotCount = 1 with hash type None succeeds;
    the encapsulated handler rejects slot 1 when SlotCount = 1. -/
theorem responseChallenge_slot_check_boundary_witness :
    ((SpdmGetResponseChallenge initTranscript 1 2 0 [] true true true []).isError
        = true ∧
     (SpdmGetResponseChallenge initTranscript 1 2 0 [] true true true []).errorCode
        = SPDM_ERROR_CODE_INVALID_REQUEST) ∧
    (SpdmGetResponseChallenge initTranscript 1 1 0 [] true true true []).isError
        = false ∧
    (SpdmGetEncapResponseChallengeAuth initTranscript 1 true 1 0 [5] [] []
        [6] true).isError = true ∧
    (SpdmGetEncapResponseChallengeAuth initTranscript 1 true 1 0 [5] [] []
        [6] true).errorCode = SPDM_ERROR_CODE_INVALID_REQUEST := by
  have h := responseChallenge_slot_check_boundary initTranscript 1 2 0 []
      true true true [] initTranscript 1 true 1 0 [5] [] [] [6] true
  refine ⟨h.1.mpr (Or.inl (by decide)), ?_, ?_⟩
  · exact h.2.1 ⟨MeasurementSummary.zeroHash, by decide⟩ rfl rfl rfl
  · exact h.2.2 (by decide) (by decide)

/-- Failing input for C5: two measurement blocks - the first of DMTF value
    type 5 (masked value 5, not Immutable-ROM), the second of type 0
    (Immutable-ROM) - each with a one-byte value; the scratch list is the
    initial content of the first 8 bytes of the uninitialized
    MeasurementData stack array (here filled with the arbitrary byte 7). -/
def c5Blocks : List SPDM_MEASUREMENT_BLOCK_DMTF :=
  [ { dmtfSpecMeasurementValueType := 5, dmtfSpecMeasurementValue := [9] }
  , { dmtfSpecMeasurementValueType := 0, dmtfSpecMeasurementValue := [8] } ]

/-- C5: the TcbComponent measurement-summary-hash of
    SpdmGenerateMeasurementSummaryHash does not hash "exactly the blocks
    whose masked DMTF value type equals Immutable-ROM": the gather loop
    advances the destination offset by every block's MeasurementSize even
    when the block is filtered out (SpdmCommonLibCryptoService.c line 469
    runs outside the `if` of lines 465-468), so the hashed prefix keeps the
    uninitialized stack bytes in the gap.  On the failing input the code
    hashes [7,7,7,7, 0,1,0,8] (four indeterminate bytes, then the ROM
    block), while the claim requires exactly the ROM block's bytes
    [0,1,0,8]; the parallel implementation CalculateMeasurementSummaryHash
    in SpdmResponderLibChallengeAuth.c compacts the selected values
    instead. -/
theorem measurementSummaryHash_tcb_gap_bug :
    SpdmGenerateMeasurementSummaryHash
        SPDM_CHALLENGE_REQUEST_TCB_COMPONENT_MEASUREMENT_HASH c5Blocks
        (List.replicate 8 7) =
      some (MeasurementSummary.hashOf [7, 7, 7, 7, 0, 1, 0, 8]) ∧
    specSummaryHashInput SPDM_CHALLENGE_REQUEST_TCB_COMPONENT_MEASUREMENT_HASH
        c5Blocks = [0, 1, 0, 8] ∧
    SpdmGenerateMeasurementSummaryHash
        SPDM_CHALLENGE_REQUEST_TCB_COMPONENT_MEASUREMENT_HASH c5Blocks
        (List.replicate 8 7) ≠
      some (MeasurementSummary.hashOf
        (specSummaryHashInput SPDM_CHALLENGE_REQUEST_TCB_COMPONENT_MEASUREMENT_HASH
          c5Blocks)) ∧
    CalculateMeasurementSummaryHash
        SPDM_CHALLENGE_REQUEST_TCB_COMPONENT_MEASUREMENT_HASH c5Blocks =
      some (MeasurementSummary.hashOf [8]) := by
  refine ⟨by decide, by decide, by decide, by decide⟩

/-- The freshly initialized device context (SpdmInitContext,
    SpdmCommonLibContextData.c lines 737-772): everything zeroed, the
    transcript capacities installed, ResponseState = Normal (0), RetryTimes
    set to the retry maximum (modelled from the spec: "default small",
    section 7; the defining header is not in src). -/
def initDeviceContext : SPDM_DEVICE_CONTEXT :=
  { errorState := 0
  , encapContext :=
      { errorState := 0, encapState := 0, requestId := 0, slotNum := 0
      , measurementHashType := 0
      , certificateChainBuffer := InitManagedBuffer MAX_SPDM_MESSAGE_BUFFER_SIZE }
  , localContext :=
      { spdmVersion := 0
      , capability := { ctExponent := 0, flags := 0 }
      , algorithm :=
          { measurementHashAlgo := 0, baseAsymAlgo := 0, baseHashAlgo := 0
          , dheNamedGroup := 0, aeadCipherSuite := 0, reqBaseAsymAlg := 0
          , keySchedule := 0 }
      , certificateChain := List.replicate MAX_SPDM_SLOT_COUNT []
      , slotCount := 0, provisionedSlotNum := 0
      , peerRootCertHashProvision := [], peerCertChainProvision := []
      , pskHint := [], opaqueChallengeAuthRsp := [], opaqueMeasurementRsp := []
      , basicMutAuthRequested := 0, mutAuthRequested := 0 }
  , connectionInfo :=
      { connectionState := 0
      , version := []
      , capability := { ctExponent := 0, flags := 0 }
      , algorithm :=
          { measurementHashAlgo := 0, baseAsymAlgo := 0, baseHashAlgo := 0
          , dheNamedGroup := 0, aeadCipherSuite := 0, reqBaseAsymAlg := 0
          , keySchedule := 0 }
      , peerCertChainBuffer := [], localUsedCertChainBuffer := [] }
  , transcript := initTranscript
  , sessionInfo := initSessionTable
  , latestSessionId := 0
  , responseState := 0
  , retryTimes := 3
  , currentToken := 0 }

/-- C9: for each of the seven algorithm data types, a successful
    SpdmSetData modifies exactly the named local.algorithm field - the
    resulting context equals the original with only that field replaced, so
    connection state (including connection.algorithm) and everything else
    is unchanged - and SpdmGetData of the same tag with
    Location = Connection returns the connection.algorithm value, which the
    protocol engine populates. -/
theorem spdmSetData_algorithm_frame
    (ctx : SPDM_DEVICE_CONTEXT) (parameter : SPDM_DATA_PARAMETER)
    (data : List Nat) (dataSize : Nat)
    (hloc : parameter.location = SPDM_DATA_LOCATION.spdmDataLocationConnection) :
    ((SpdmSetData ctx SPDM_DATA_TYPE.spdmDataMeasurementHashAlgo parameter data).1 =
        RETURN_STATUS.returnSuccess →
      (SpdmSetData ctx SPDM_DATA_TYPE.spdmDataMeasurementHashAlgo parameter data).2 =
        { ctx with localContext := { ctx.localContext with
            algorithm := { ctx.localContext.algorithm with
              measurementHashAlgo := leNat data } } }) ∧
    (4 ≤ dataSize →
      SpdmGetData ctx SPDM_DATA_TYPE.spdmDataMeasurementHashAlgo parameter dataSize =
        Except.ok (leBytes ctx.connectionInfo.algorithm.measurementHashAlgo 4)) ∧
    ((SpdmSetData ctx SPDM_DATA_TYPE.spdmDataBaseAsymAlgo parameter data).1 =
        RETURN_STATUS.returnSuccess →
      (SpdmSetData ctx SPDM_DATA_TYPE.spdmDataBaseAsymAlgo parameter data).2 =
        { ctx with localContext := { ctx.localContext with
            algorithm := { ctx.localContext.algorithm with
              baseAsymAlgo := leNat data } } }) ∧
    (4 ≤ dataSize →
      SpdmGetData ctx SPDM_DATA_TYPE.spdmDataBaseAsymAlgo parameter dataSize =
        Except.ok (leBytes ctx.connectionInfo.algorithm.baseAsymAlgo 4)) ∧
    ((SpdmSetData ctx SPDM_DATA_TYPE.spdmDataBaseHashAlgo parameter data).1 =
        RETURN_STATUS.returnSuccess →
      (SpdmSetData ctx SPDM_DATA_TYPE.spdmDataBaseHashAlgo parameter data).2 =
        { ctx with localContext := { ctx.localContext with
            algorithm := { ctx.localContext.algorithm with
              baseHashAlgo := leNat data } } }) ∧
    (4 ≤ dataSize →
      SpdmGetData ctx SPDM_DATA_TYPE.spdmDataBaseHashAlgo parameter dataSize =
        Except.ok (leBytes ctx.connectionInfo.algorithm.baseHashAlgo 4)) ∧
    ((SpdmSetData ctx SPDM_DATA_TYPE.spdmDataDHENamedGroup parameter data).1 =
        RETURN_STATUS.returnSuccess →
      (SpdmSetData ctx SPDM_DATA_TYPE.spdmDataDHENamedGroup parameter data).2 =
        { ctx with localContext := { ctx.localContext with
            algorithm := { ctx.localContext.algorithm with
              dheNamedGroup := leNat data } } }) ∧
    (2 ≤ dataSize →
      SpdmGetData ctx SPDM_DATA_TYPE.spdmDataDHENamedGroup parameter dataSize =
        Except.ok (leBytes ctx.connectionInfo.algorithm.dheNamedGroup 2)) ∧
    ((SpdmSetData ctx SPDM_DATA_TYPE.spdmDataAEADCipherSuite parameter data).1 =
        RETURN_STATUS.returnSuccess →
      (SpdmSetData ctx SPDM_DATA_TYPE.spdmDataAEADCipherSuite parameter data).2 =
        { ctx with localContext := { ctx.localContext with
            algorithm := { ctx.localContext.algorithm with
              aeadCipherSuite := leNat data } } }) ∧
    (2 ≤ dataSize →
      SpdmGetData ctx SPDM_DATA_TYPE.spdmDataAEADCipherSuite parameter dataSize =
        Except.ok (leBytes ctx.connectionInfo.algorithm.aeadCipherSuite 2)) ∧
    ((SpdmSetData ctx SPDM_DATA_TYPE.spdmDataReqBaseAsymAlg parameter data).1 =
        RETURN_STATUS.returnSuccess →
      (SpdmSetData ctx SPDM_DATA_TYPE.spdmDataReqBaseAsymAlg parameter data).2 =
        { ctx with localContext := { ctx.localContext with
            algorithm := { ctx.localContext.algorithm with
              reqBaseAsymAlg := leNat data } } }) ∧
    (2 ≤ dataSize →
      SpdmGetData ctx SPDM_DATA_TYPE.spdmDataReqBaseAsymAlg parameter dataSize =
        Except.ok (leBytes ctx.connectionInfo.algorithm.reqBaseAsymAlg 2)) ∧
    ((SpdmSetData ctx SPDM_DATA_TYPE.spdmDataKeySchedule parameter data).1 =
        RETURN_STATUS.returnSuccess →
      (SpdmSetData ctx SPDM_DATA_TYPE.spdmDataKeySchedule parameter data).2 =
        { ctx with localContext := { ctx.localContext with
            algorithm := { ctx.localContext.algorithm with
              keySchedule := leNat data } } }) ∧
    (2 ≤ dataSize →
      SpdmGetData ctx SPDM_DATA_TYPE.spdmDataKeySchedule parameter dataSize =
        Except.ok (leBytes ctx.connectionInfo.algorithm.keySchedule 2)) := by
  have hlocb :
      (parameter.location != SPDM_DATA_LOCATION.spdmDataLocationConnection) = false := by
    simp [hloc]
  refine ⟨?_, ?_, ?_, ?_, ?_, ?_, ?_, ?_, ?_, ?_, ?_, ?_, ?_, ?_⟩
  · intro h
    simp only [SpdmSetData] at h ⊢
    by_cases hl : (data.length != 4) = true
    · rw [if_pos hl] at h
      simp at h
    · rw [if_neg hl] at h ⊢
  · intro h
    simp [SpdmGetData, hlocb, Nat.not_lt.mpr h]
  · intro h
    simp only [SpdmSetData] at h ⊢
    by_cases hl : (data.length != 4) = true
    · rw [if_pos hl] at h
      simp at h
    · rw [if_neg hl] at h ⊢
  · intro h
    simp [SpdmGetData, hlocb, Nat.not_lt.mpr h]
  · intro h
    simp only [SpdmSetData] at h ⊢
    by_cases hl : (data.length != 4) = true
    · rw [if_pos hl] at h
      simp at h
    · rw [if_neg hl] at h ⊢
  · intro h
    simp [SpdmGetData, hlocb, Nat.not_lt.mpr h]
  · intro h
    simp only [SpdmSetData] at h ⊢
    by_cases hl : (data.length != 2) = true
    · rw [if_pos hl] at h
      simp at h
    · rw [if_neg hl] at h ⊢
  · intro h
    simp [SpdmGetData, hlocb, Nat.not_lt.mpr h]
  · intro h
    simp only [SpdmSetData] at h ⊢
    by_cases hl : (data.length != 2) = true
    · rw [if_pos hl] at h
      simp at h
    · rw [if_neg hl] at h ⊢
  · intro h
    simp [SpdmGetData, hlocb, Nat.not_lt.mpr h]
  · intro h
    simp only [SpdmSetData] at h ⊢
    by_cases hl : (data.length != 2) = true
    · rw [if_pos hl] at h
      simp at h
    · rw [if_neg hl] at h ⊢
  · intro h
    simp [SpdmGetData, hlocb, Nat.not_lt.mpr h]
  · intro h
    simp only [SpdmSetData] at h ⊢
    by_cases hl : (data.length != 2) = true
    · rw [if_pos hl] at h
      simp at h
    · rw [if_neg hl] at h ⊢
  · intro h
    simp [SpdmGetData, hlocb, Nat.not_lt.mpr h]

/-- Witness for C9 on the fresh context: setting the measurement-hash
    algorithm (4-byte value 1) changes only local.algorithm, and a
    connection-scoped get of the DHE group reads connection.algorithm. -/
theorem spdmSetData_algorithm_frame_witness :
    (SpdmSetData initDeviceContext SPDM_DATA_TYPE.spdmDataMeasurementHashAlgo
        { location := SPDM_DATA_LOCATION.spdmDataLocationConnection
        , additionalData := [] } [1, 0, 0, 0]).2 =
      { initDeviceContext with localContext :=
          { initDeviceContext.localContext with algorithm :=
              { initDeviceContext.localContext.algorithm with
                  measurementHashAlgo := leNat [1, 0, 0, 0] } } } ∧
    SpdmGetData initDeviceContext SPDM_DATA_TYPE.spdmDataDHENamedGroup
        { location := SPDM_DATA_LOCATION.spdmDataLocationConnection
        , additionalData := [] } 2 =
      Except.ok (leBytes initDeviceContext.connectionInfo.algorithm.dheNamedGroup 2) := by
  have h := spdmSetData_algorithm_frame initDeviceContext
      { location := SPDM_DATA_LOCATION.spdmDataLocationConnection
      , additionalData := [] } [1, 0, 0, 0] 2 rfl
  exact ⟨h.1 (by decide), h.2.2.2.2.2.2.2.1 (by decide)⟩
